import Mathlib

/-!
# Verification of schema-diff-pro SQL emission, filtering and execution flow

Shallow embedding of the TypeScript frontend of `schema-diff-pro`:

* `src/frontend/components/DifferenceDetail.tsx` — per-difference SQL emission
  (`escapeSqlString`, `buildColumnDefinition`, `generateCreateTableSQL`,
  `generateOption1SQL`, `generateOption2SQL`);
* `src/unnamed/part_011` — the older UI-embedded variant of the same generators;
* `src/frontend/components/DifferencesList.tsx` — difference filtering;
* `src/frontend/types/index.ts` — the `DiffType` enumeration and data model;
* `src/unnamed/part_009` (`ComparisonResults`) — script analysis/execution flow
  and result export.

JavaScript strings are modelled as Lean `String` (`List Char` data); JS
`undefined`/`null`/string/boolean/object values flowing through `any`-typed
fields are modelled by the `Value` inductive below.  Template interpolation of
`undefined` is modelled as the string `"undefined"`, as in JS.
-/

/-! ## JavaScript string primitives -/

/-- One character of JS `String.prototype.toUpperCase` (ASCII fragment; the
repository only compares ASCII SQL keywords). -/
def asciiUpperChar (c : Char) : Char :=
  if 'a' ≤ c ∧ c ≤ 'z' then Char.ofNat (c.toNat - 32) else c

/-- One character of JS `String.prototype.toLowerCase` (ASCII fragment). -/
def asciiLowerChar (c : Char) : Char :=
  if 'A' ≤ c ∧ c ≤ 'Z' then Char.ofNat (c.toNat + 32) else c

/-- JS `s.toUpperCase()`. -/
def strUpper (s : String) : String := String.mk (s.data.map asciiUpperChar)

/-- JS `s.toLowerCase()`. -/
def strLower (s : String) : String := String.mk (s.data.map asciiLowerChar)

/-- Replace every occurrence of one character by a character list
(the building block of the `.replace(/./g, ...)` calls in the source). -/
def replaceEach (f : Char → List Char) (s : String) : String :=
  String.mk (s.data.flatMap f)

/-- `value.replace(/\\/g, '\\\\')`: double every backslash. -/
def replaceBackslashes (s : String) : String :=
  replaceEach (fun c => if c = '\\' then ['\\', '\\'] else [c]) s

/-- `value.replace(/'/g, "''")`: double every single quote. -/
def replaceQuotes (s : String) : String :=
  replaceEach (fun c => if c = '\'' then ['\'', '\''] else [c]) s

/-- `DifferenceDetail.tsx` lines 18-21:
`value.replace(/\\/g, '\\\\').replace(/'/g, "''")`. -/
def escapeSqlString (s : String) : String :=
  replaceQuotes (replaceBackslashes s)

/-- JS truthiness of an optional string field (`undefined`, `null` and `""`
are falsy). -/
def tstr : Option String → Bool
  | none => false
  | some s => !(s == "")

/-- JS `a || b` where `a` is an optional string field and `b` a string. -/
def jsOrS (a : Option String) (b : String) : String :=
  if tstr a then a.getD "" else b

/-- JS `a || b` on two optional string fields. -/
def jsOr (a b : Option String) : Option String :=
  if tstr a then a else b

/-- JS template interpolation of a possibly-`undefined` string field. -/
def jsInterpOpt : Option String → String
  | none => "undefined"
  | some s => s

/-- JS whitespace test used by `String.prototype.trim` (ASCII fragment). -/
def wsChar (c : Char) : Bool :=
  c = ' ' ∨ c = '\t' ∨ c = '\n' ∨ c = '\r'

/-- List-level two-sided trim. -/
def trimL (l : List Char) : List Char :=
  ((l.dropWhile wsChar).reverse.dropWhile wsChar).reverse

/-- JS `s.trim()`. -/
def jsTrim (s : String) : String := String.mk (trimL s.data)

/-- JS `hay.includes(needle)` (substring test). -/
def strIncludes (hay needle : String) : Bool :=
  (hay.data.tails).any (fun t => needle.data.isPrefixOf t)

/-- JS `s.startsWith(pre)`. -/
def strStartsWith (s pre : String) : Bool :=
  pre.data.isPrefixOf s.data

/-! ## Data model (`src/frontend/types/index.ts` and the JSON attribute bags) -/

/-- Column attribute bag (the `any` value carried by column differences:
type, nullability, default, charset, collation, extra flags, comment).
`none` models an absent (`undefined`/`null`) field; `is_nullable` may itself
be absent, hence `Option Bool`.  Defaults travel as JSON strings or null,
modelled by `Option String`. -/
structure ColBag where
  column_type : Option String := none
  data_type : Option String := none
  character_set : Option String := none
  collation : Option String := none
  is_nullable : Option Bool := none
  column_default : Option String := none
  extra : Option String := none
  comment : Option String := none
  column_key : Option String := none
  ordinal_position : Option Int := none
deriving DecidableEq, Repr

/-- The `columns` field of an index bag: absent, a pre-joined string, or an
array of column names. -/
inductive IdxCols where
  | cnone
  | cstr (s : String)
  | carr (l : List String)
deriving DecidableEq, Repr

/-- Index attribute bag. -/
structure IdxBag where
  index_name : String := "undefined"
  index_type : Option String := none
  is_unique : Bool := false
  columns : IdxCols := IdxCols.cnone
deriving DecidableEq, Repr

/-- Constraint attribute bag. -/
structure ConstrBag where
  constraint_name : String := "undefined"
  constraint_type : Option String := none
  columns : Option String := none
  referenced_table_schema : String := "undefined"
  referenced_table_name : String := "undefined"
  referenced_columns : Option String := none
  update_rule : Option String := none
  delete_rule : Option String := none
  check_clause : Option String := none
deriving DecidableEq, Repr

/-- One entry of a partition map. -/
structure PartEntry where
  ordinal_position : Option Int := none
  description : Option String := none
deriving DecidableEq, Repr

/-- Partition attribute bag (whole-table partitioning info or a single
partition). -/
structure PartitionBag where
  partition_method : Option String := none
  partition_expression : Option String := none
  partitions : List (String × PartEntry) := []
  description : Option String := none
deriving DecidableEq, Repr

/-- Table attribute bag; `columns` is the JSON object of column name to
column bag, in insertion order. -/
structure TableBag where
  engine : Option String := none
  collation : Option String := none
  columns : List (String × ColBag) := []
deriving DecidableEq, Repr

/-- An `any`-typed `source_value`/`target_value` of a `Difference`.
JS distinguishes `undefined` from `null` (both falsy), so both appear.
Per the data model (§3 of the spec), a difference's values carry the
attribute bag of its own object kind, so object values are modelled by one
constructor per kind. -/
inductive Value where
  | undef
  | vNull
  | vStr (s : String)
  | vBool (b : Bool)
  | col (c : ColBag)
  | idx (i : IdxBag)
  | constr (k : ConstrBag)
  | table (t : TableBag)
  | part (p : PartitionBag)
deriving DecidableEq, Repr

/-- JS truthiness of a `Value`. -/
def Value.truthy : Value → Bool
  | .undef => false
  | .vNull => false
  | .vStr s => !(s == "")
  | .vBool b => b
  | _ => true

/-- JS template interpolation (`${v}`) of a `Value`. -/
def Value.jsToString : Value → String
  | .undef => "undefined"
  | .vNull => "null"
  | .vStr s => s
  | .vBool b => if b then "true" else "false"
  | _ => "[object Object]"

/-- The `Difference` record of `src/frontend/types/index.ts` (lines 180-193).
`diff_type` is the runtime string value of the `DiffType` enum member.
`source_display_value`/`target_display_value` are referenced by
`DifferenceDetail.tsx` although the interface does not declare them;
they are carried here as optional fields. -/
structure Difference where
  diff_type : String
  severity : String := "medium"
  object_type : String := "column"
  schema_name : Option String := none
  object_name : String := ""
  sub_object_name : Option String := none
  source_value : Value := Value.undef
  target_value : Value := Value.undef
  source_display_value : Option String := none
  target_display_value : Option String := none
  description : String := ""
  can_auto_fix : Bool := false
  fix_order : Int := 0
  warnings : List String := []
deriving DecidableEq, Repr

/-! ## The `DiffType` enumeration (`src/frontend/types/index.ts` lines 129-157)

Each member is modelled as the `Option String` produced by the JS member
access `DiffType.X`: `some v` for a member the enum defines with value `v`,
and `none` for a member access that the enum does **not** define (JS property
access on a missing key yields `undefined`).  `DifferenceDetail.tsx` switches
on several member names (`COLUMN_RENAMED`, `INDEX_RENAMED`,
`INDEX_DUPLICATE_SOURCE`, `INDEX_DUPLICATE_TARGET`, `CONSTRAINT_RENAMED`,
and the `PARTITION_*` family) that are absent from the enum. -/

namespace DiffType

def SCHEMA_MISSING_SOURCE : Option String := some "schema_missing_source"

def SCHEMA_MISSING_TARGET : Option String := some "schema_missing_target"

def TABLE_MISSING_SOURCE : Option String := some "table_missing_source"

def TABLE_MISSING_TARGET : Option String := some "table_missing_target"

def COLUMN_ADDED : Option String := some "column_added"

def COLUMN_REMOVED : Option String := some "column_removed"

def COLUMN_TYPE_CHANGED : Option String := some "column_type_changed"

def COLUMN_DEFAULT_CHANGED : Option String := some "column_default_changed"

def COLUMN_NULLABLE_CHANGED : Option String := some "column_nullable_changed"

def COLUMN_EXTRA_CHANGED : Option String := some "column_extra_changed"

def INDEX_MISSING_SOURCE : Option String := some "index_missing_source"

def INDEX_MISSING_TARGET : Option String := some "index_missing_target"

def INDEX_COLUMNS_CHANGED : Option String := some "index_columns_changed"

def INDEX_TYPE_CHANGED : Option String := some "index_type_changed"

def INDEX_UNIQUE_CHANGED : Option String := some "index_unique_changed"

def CONSTRAINT_MISSING_SOURCE : Option String := some "constraint_missing_source"

def CONSTRAINT_MISSING_TARGET : Option String := some "constraint_missing_target"

def CONSTRAINT_DEFINITION_CHANGED : Option String := some "constraint_definition_changed"

def ROUTINE_MISSING_SOURCE : Option String := some "routine_missing_source"

def ROUTINE_MISSING_TARGET : Option String := some "routine_missing_target"

def ROUTINE_DEFINITION_CHANGED : Option String := some "routine_definition_changed"

def VIEW_MISSING_SOURCE : Option String := some "view_missing_source"

def VIEW_MISSING_TARGET : Option String := some "view_missing_target"

def VIEW_DEFINITION_CHANGED : Option String := some "view_definition_changed"

def TRIGGER_MISSING_SOURCE : Option String := some "trigger_missing_source"

def TRIGGER_MISSING_TARGET : Option String := some "trigger_missing_target"

def TRIGGER_DEFINITION_CHANGED : Option String := some "trigger_definition_changed"

/-- Member accesses used by `DifferenceDetail.tsx` on names the enum does
not define: JS yields `undefined`. -/
def COLUMN_RENAMED : Option String := none

/-- Not defined by the enum (`undefined` in JS). -/
def INDEX_RENAMED : Option String := none

/-- Not defined by the enum (`undefined` in JS). -/
def INDEX_DUPLICATE_SOURCE : Option String := none

/-- Not defined by the enum (`undefined` in JS). -/
def INDEX_DUPLICATE_TARGET : Option String := none

/-- Not defined by the enum (`undefined` in JS). -/
def CONSTRAINT_RENAMED : Option String := none

/-- Not defined by the enum (`undefined` in JS). -/
def PARTITION_MISSING_SOURCE : Option String := none

/-- Not defined by the enum (`undefined` in JS). -/
def PARTITION_MISSING_TARGET : Option String := none

/-- Not defined by the enum (`undefined` in JS). -/
def PARTITION_DEFINITION_CHANGED : Option String := none

/-- The complete list of string values the `DiffType` enum defines
(`src/frontend/types/index.ts` lines 129-157, in source order). -/
def values : List String :=
  [ "schema_missing_source", "schema_missing_target",
    "table_missing_source", "table_missing_target",
    "column_added", "column_removed", "column_type_changed",
    "column_default_changed", "column_nullable_changed",
    "column_extra_changed",
    "index_missing_source", "index_missing_target",
    "index_columns_changed", "index_type_changed", "index_unique_changed",
    "constraint_missing_source", "constraint_missing_target",
    "constraint_definition_changed",
    "routine_missing_source", "routine_missing_target",
    "routine_definition_changed",
    "view_missing_source", "view_missing_target", "view_definition_changed",
    "trigger_missing_source", "trigger_missing_target",
    "trigger_definition_changed" ]

end DiffType

/-! ## SQL emission (`src/frontend/components/DifferenceDetail.tsx`)

The generators below transcribe `generateOption1SQL`/`generateOption2SQL`
(lines 411-1026).  The JS `switch` compares `difference.diff_type` with the
`DiffType` member constants; this is modelled by comparing
`some d.diff_type` with the `Option String` member model, so a member the
enum does not define (`none`) can never be matched, exactly as in JS where
`diff_type === undefined` is false for every enum-valued difference.

Object-typed values are matched against the bag constructor of the
difference's own object kind (spec §3: `diff_type` constrains the legal
`object_type`, so e.g. a column difference carries column bags); `undefined`,
`null`, strings and booleans follow the source's truthiness/`typeof` tests
verbatim. -/

/-- The `-- Execute on <DB> database:` header line every emission rule
prepends (written inline in the source templates, with the database label
parametrised as in `generateCreateTableSQL`). -/
def execOn (db rest : String) : String :=
  "-- Execute on " ++ db ++ " database:\n" ++ rest

/-- `const tableName = \`\`${difference.schema_name}\`.\`${difference.object_name}\`\``. -/
def tableNameOf (d : Difference) : String :=
  "`" ++ jsInterpOpt d.schema_name ++ "`.`" ++ d.object_name ++ "`"

/-- `const columnName = difference.sub_object_name ? \`\`${difference.sub_object_name}\`\` : ''`. -/
def columnNameOf (d : Difference) : String :=
  match d.sub_object_name with
  | some s => if s == "" then "" else "`" ++ s ++ "`"
  | none => ""

/-- `buildColumnDefinition` (`DifferenceDetail.tsx` lines 29-84): rebuild the
complete column definition — type, charset, collation, nullability, default
(quoted and escaped unless a recognized non-literal), extra flags, comment
(quote-doubled) — from a column attribute bag.  Neither caller in the file
passes the override arguments. -/
def buildColumnDefinition (v : Value) (overrideType : Option String)
    (overrideNullable : Option Bool) : String :=
  match v with
  | Value.col colInfo =>
      let colType := jsOrS overrideType
        (jsOrS colInfo.column_type (jsOrS colInfo.data_type "VARCHAR(255)"))
      let charsetClause :=
        if tstr colInfo.character_set then
          " CHARACTER SET " ++ colInfo.character_set.getD "" else ""
      let collationClause :=
        if tstr colInfo.collation then
          " COLLATE " ++ colInfo.collation.getD "" else ""
      let nullable :=
        match overrideNullable with
        | some b => if b then "NULL" else "NOT NULL"
        | none => if colInfo.is_nullable = some true then "NULL" else "NOT NULL"
      let defaultClause :=
        match colInfo.column_default with
        | none => ""
        | some dv =>
            let defaultStr := strUpper dv
            if defaultStr = "CURRENT_TIMESTAMP" ∨ defaultStr = "CURRENT_DATE"
                ∨ defaultStr = "NULL" ∨ strStartsWith defaultStr "CURRENT_" then
              " DEFAULT " ++ dv
            else
              " DEFAULT '" ++ escapeSqlString dv ++ "'"
      let extraClause := if tstr colInfo.extra then " " ++ colInfo.extra.getD "" else ""
      let commentClause :=
        if tstr colInfo.comment then
          " COMMENT '" ++ replaceQuotes (colInfo.comment.getD "") ++ "'" else ""
      jsTrim (colType ++ charsetClause ++ collationClause ++ " " ++ nullable
        ++ defaultClause ++ extraClause ++ commentClause)
  | v => if v.truthy then v.jsToString else "VARCHAR(255)"

/-- Stable insertion into a key-sorted list (equal keys keep original order),
modelling the stable JS `Array.prototype.sort` with a numeric comparator. -/
def insertByPos {α : Type} (key : α → Int) (x : α) : List α → List α
  | [] => [x]
  | y :: ys => if key x ≤ key y then x :: y :: ys else y :: insertByPos key x ys

/-- Stable ascending sort by an integer key. -/
def sortByPos {α : Type} (key : α → Int) : List α → List α
  | [] => []
  | x :: xs => insertByPos key x (sortByPos key xs)

/-- The column-definition loop of `generateCreateTableSQL` (lines 309-338):
returns the accumulated column definitions and the primary-key column names,
in source order.  Defaults travel as strings, so the source's
`typeof defaultVal === 'string'` test holds whenever a default is present. -/
def createTableCols : List (String × ColBag) → List String × List String
  | [] => ([], [])
  | (colName, col) :: rest =>
      let colType := jsOrS col.column_type (jsOrS col.data_type "VARCHAR(255)")
      let nullable := if col.is_nullable = some true then "NULL" else "NOT NULL"
      let defaultClause :=
        match col.column_default with
        | none => ""
        | some dv =>
            if ¬(strStartsWith (strUpper dv) "CURRENT_") ∧ ¬(strUpper dv = "NULL") then
              " DEFAULT '" ++ escapeSqlString dv ++ "'"
            else
              " DEFAULT " ++ dv
      let extra :=
        if tstr col.extra ∧ strIncludes (strLower (col.extra.getD "")) "auto_increment"
        then " AUTO_INCREMENT" else ""
      let cdef := "`" ++ colName ++ "` " ++ colType ++ " " ++ nullable ++ defaultClause ++ extra
      let pk := if col.column_key = some "PRI" then ["`" ++ colName ++ "`"] else []
      let (defs, pks) := createTableCols rest
      (cdef :: defs, pk ++ pks)

/-- `generateCreateTableSQL` (`DifferenceDetail.tsx` lines 286-349): full
`CREATE TABLE` emission from a table bag, columns sorted by
`ordinal_position || 0`. -/
def generateCreateTableSQL (tableData : Value) (tableName targetDb : String) : String :=
  match tableData with
  | Value.table t =>
      let engine := jsOrS t.engine "InnoDB"
      let collation := jsOrS t.collation ""
      if t.columns = [] then
        execOn targetDb ("CREATE TABLE " ++ tableName
          ++ " (\n  -- Column information not available\n) ENGINE=" ++ engine
          ++ (if ¬(collation = "") then " COLLATE=" ++ collation else "") ++ ";")
      else
        let sortedColumns := sortByPos (fun e => e.2.ordinal_position.getD 0) t.columns
        let (colDefs0, primaryKeys) := createTableCols sortedColumns
        let colDefs :=
          if primaryKeys = [] then colDefs0
          else colDefs0 ++ ["PRIMARY KEY (" ++ String.intercalate ", " primaryKeys ++ ")"]
        let engineClause := if ¬(engine = "") then " ENGINE=" ++ engine else ""
        let collationClause := if ¬(collation = "") then " COLLATE=" ++ collation else ""
        execOn targetDb ("CREATE TABLE " ++ tableName ++ " (\n  "
          ++ String.intercalate ",\n  " colDefs ++ "\n)" ++ engineClause ++ collationClause ++ ";")
  | _ =>
      execOn targetDb ("CREATE TABLE " ++ tableName
        ++ " (\n  -- Table structure not available\n) ENGINE=InnoDB;")

/-- `generateOption1SQL` (`DifferenceDetail.tsx` lines 411-701): the
"Target → Source" emission rule (make Source like Target; execute on the
SOURCE database). -/
def generateOption1SQL (d : Difference) : String :=
  let tableName := tableNameOf d
  let columnName := columnNameOf d
  if some d.diff_type = DiffType.COLUMN_ADDED then
    match d.target_value with
    | Value.vStr s =>
        if s == "" then
          execOn "SOURCE" ("ALTER TABLE " ++ tableName ++ " ADD COLUMN " ++ columnName
            ++ " VARCHAR(255) NULL;")
        else
          execOn "SOURCE" ("ALTER TABLE " ++ tableName ++ " ADD COLUMN " ++ columnName
            ++ " " ++ s ++ ";")
    | Value.col c =>
        let columnType := jsOr c.column_type c.data_type
        if tstr columnType then
          let nullable :=
            match c.is_nullable with
            | some b => if b then "NULL" else "NOT NULL"
            | none => ""
          let defaultValue :=
            match c.column_default with
            | none => ""
            | some dv =>
                let defVal := strUpper dv
                if defVal = "CURRENT_TIMESTAMP" ∨ defVal = "CURRENT_DATE"
                    ∨ defVal = "NULL" ∨ strStartsWith defVal "CURRENT_" then
                  " DEFAULT " ++ dv
                else
                  " DEFAULT '" ++ escapeSqlString dv ++ "'"
          let extra := if tstr c.extra then " " ++ c.extra.getD "" else ""
          execOn "SOURCE" ("ALTER TABLE " ++ tableName ++ " ADD COLUMN " ++ columnName
            ++ " " ++ columnType.getD "" ++ " " ++ nullable ++ defaultValue ++ extra ++ ";")
        else
          execOn "SOURCE" ("ALTER TABLE " ++ tableName ++ " ADD COLUMN " ++ columnName
            ++ " VARCHAR(255) NULL;")
    | _ =>
        execOn "SOURCE" ("ALTER TABLE " ++ tableName ++ " ADD COLUMN " ++ columnName
          ++ " VARCHAR(255) NULL;")
  else if some d.diff_type = DiffType.COLUMN_REMOVED then
    execOn "SOURCE" ("ALTER TABLE " ++ tableName ++ " DROP COLUMN " ++ columnName ++ ";")
  else if some d.diff_type = DiffType.COLUMN_TYPE_CHANGED then
    match d.target_value with
    | Value.col targetInfo =>
        execOn "SOURCE" ("ALTER TABLE " ++ tableName ++ " MODIFY COLUMN " ++ columnName
          ++ " " ++ buildColumnDefinition (Value.col targetInfo) none none ++ ";")
    | Value.vStr s =>
        if s == "" then "-- Unable to determine target column type"
        else
          execOn "SOURCE" ("ALTER TABLE " ++ tableName ++ " MODIFY COLUMN " ++ columnName
            ++ " " ++ s ++ ";")
    | v =>
        if v.truthy then
          execOn "SOURCE" ("ALTER TABLE " ++ tableName ++ " MODIFY COLUMN " ++ columnName
            ++ " undefined;")
        else "-- Unable to determine target column type"
  else if some d.diff_type = DiffType.COLUMN_NULLABLE_CHANGED then
    match d.target_value with
    | Value.col targetInfo =>
        execOn "SOURCE" ("ALTER TABLE " ++ tableName ++ " MODIFY COLUMN " ++ columnName
          ++ " " ++ buildColumnDefinition (Value.col targetInfo) none none ++ ";")
    | Value.undef => "-- Unable to determine target column info"
    | Value.vNull => "-- Unable to determine target column info"
    | v =>
        let nullable := if v.truthy then "NULL" else "NOT NULL"
        execOn "SOURCE" ("ALTER TABLE " ++ tableName ++ " MODIFY COLUMN " ++ columnName
          ++ " VARCHAR(255) " ++ nullable ++ ";")
  else if some d.diff_type = DiffType.COLUMN_DEFAULT_CHANGED then
    match d.target_value with
    | Value.col targetInfo =>
        execOn "SOURCE" ("ALTER TABLE " ++ tableName ++ " MODIFY COLUMN " ++ columnName
          ++ " " ++ buildColumnDefinition (Value.col targetInfo) none none ++ ";")
    | Value.undef => "-- Unable to determine target default value"
    | Value.vNull =>
        execOn "SOURCE" ("ALTER TABLE " ++ tableName ++ " ALTER COLUMN " ++ columnName
          ++ " DROP DEFAULT;")
    | v =>
        let defaultVal := v.jsToString
        let quotedDefault :=
          if strStartsWith (strUpper defaultVal) "CURRENT_" ∨ strUpper defaultVal = "NULL"
          then defaultVal else "'" ++ defaultVal ++ "'"
        execOn "SOURCE" ("ALTER TABLE " ++ tableName ++ " ALTER COLUMN " ++ columnName
          ++ " SET DEFAULT " ++ quotedDefault ++ ";")
  else if some d.diff_type = DiffType.COLUMN_EXTRA_CHANGED then
    match d.target_value with
    | Value.col targetInfo =>
        execOn "SOURCE" ("ALTER TABLE " ++ tableName ++ " MODIFY COLUMN " ++ columnName
          ++ " " ++ buildColumnDefinition (Value.col targetInfo) none none ++ ";")
    | _ =>
        execOn "SOURCE" ("-- Modify column extra properties\nALTER TABLE " ++ tableName
          ++ " MODIFY COLUMN " ++ columnName ++ " /* update properties */;")
  else if some d.diff_type = DiffType.COLUMN_RENAMED then
    match d.target_value with
    | Value.col targetInfo =>
        let targetName := jsOrS d.target_display_value "target_name"
        let sourceName := jsInterpOpt (jsOr d.source_display_value d.sub_object_name)
        execOn "SOURCE" ("-- Rename column to match target\nALTER TABLE " ++ tableName
          ++ " CHANGE COLUMN `" ++ sourceName ++ "` `" ++ targetName ++ "` "
          ++ buildColumnDefinition (Value.col targetInfo) none none ++ ";")
    | _ =>
        execOn "SOURCE" ("ALTER TABLE " ++ tableName ++ " CHANGE COLUMN " ++ columnName
          ++ " `new_name` /* column definition */;")
  else if some d.diff_type = DiffType.INDEX_MISSING_TARGET then
    execOn "SOURCE" ("DROP INDEX " ++ columnName ++ " ON " ++ tableName ++ ";")
  else if some d.diff_type = DiffType.INDEX_MISSING_SOURCE then
    match d.target_value with
    | Value.idx i =>
        let unique := if i.is_unique then "UNIQUE " else ""
        let columns0 : Option String :=
          match i.columns with
          | IdxCols.cnone => none
          | IdxCols.cstr s => some s
          | IdxCols.carr l => some (String.intercalate ", " l)
        let columns := if tstr columns0 then columns0.getD "" else "-- column_name --"
        let indexType :=
          if tstr i.index_type ∧ ¬(i.index_type = some "BTREE")
          then " USING " ++ i.index_type.getD "" else ""
        execOn "SOURCE" ("CREATE " ++ unique ++ "INDEX " ++ columnName ++ " ON "
          ++ tableName ++ " (" ++ columns ++ ")" ++ indexType ++ ";")
    | _ =>
        execOn "SOURCE" ("CREATE INDEX " ++ columnName ++ " ON " ++ tableName
          ++ " (-- column_name --);")
  else if some d.diff_type = DiffType.INDEX_RENAMED then
    match d.target_value with
    | Value.idx i =>
        execOn "SOURCE" ("-- Rename index to match target\nALTER TABLE " ++ tableName
          ++ " RENAME INDEX `" ++ jsInterpOpt d.sub_object_name ++ "` TO `"
          ++ i.index_name ++ "`;")
    | _ =>
        execOn "SOURCE" ("ALTER TABLE " ++ tableName ++ " RENAME INDEX `"
          ++ jsInterpOpt d.sub_object_name ++ "` TO `new_name`;")
  else if some d.diff_type = DiffType.INDEX_DUPLICATE_SOURCE then
    execOn "SOURCE" ("-- Drop duplicate index\nDROP INDEX `"
      ++ jsInterpOpt d.sub_object_name ++ "` ON " ++ tableName ++ ";")
  else if some d.diff_type = DiffType.INDEX_DUPLICATE_TARGET then
    match d.target_value with
    | Value.idx i =>
        let unique := if i.is_unique then "UNIQUE " else ""
        let columns :=
          match i.columns with
          | IdxCols.cnone => "-- columns --"
          | IdxCols.cstr s => if s == "" then "-- columns --" else s
          | IdxCols.carr l => String.intercalate "," l
        execOn "SOURCE" ("-- Add duplicate index (NOT RECOMMENDED)\nCREATE " ++ unique
          ++ "INDEX `" ++ i.index_name ++ "` ON " ++ tableName ++ " (" ++ columns ++ ");")
    | _ => "-- NOT RECOMMENDED: Duplicate index should be removed from target instead"
  else if some d.diff_type = DiffType.CONSTRAINT_MISSING_TARGET then
    match d.source_value with
    | Value.constr k =>
        if k.constraint_type = some "PRIMARY KEY" then
          execOn "SOURCE" ("ALTER TABLE " ++ tableName ++ " DROP PRIMARY KEY;")
        else if k.constraint_type = some "FOREIGN KEY" then
          execOn "SOURCE" ("ALTER TABLE " ++ tableName ++ " DROP FOREIGN KEY " ++ columnName ++ ";")
        else if k.constraint_type = some "UNIQUE" then
          execOn "SOURCE" ("ALTER TABLE " ++ tableName ++ " DROP INDEX " ++ columnName ++ ";")
        else
          execOn "SOURCE" ("ALTER TABLE " ++ tableName ++ " DROP CONSTRAINT " ++ columnName ++ ";")
    | _ =>
        execOn "SOURCE" ("ALTER TABLE " ++ tableName ++ " DROP CONSTRAINT " ++ columnName ++ ";")
  else if some d.diff_type = DiffType.CONSTRAINT_MISSING_SOURCE then
    match d.target_value with
    | Value.constr k =>
        if k.constraint_type = some "FOREIGN KEY" then
          let columns := jsOrS k.columns "column_name"
          let refTable := "`" ++ k.referenced_table_schema ++ "`.`" ++ k.referenced_table_name ++ "`"
          let refColumns := jsOrS k.referenced_columns "ref_column"
          let updateRule := jsOrS k.update_rule "RESTRICT"
          let deleteRule := jsOrS k.delete_rule "RESTRICT"
          execOn "SOURCE" ("ALTER TABLE " ++ tableName ++ " ADD CONSTRAINT " ++ columnName
            ++ " FOREIGN KEY (" ++ columns ++ ") REFERENCES " ++ refTable ++ " (" ++ refColumns
            ++ ") ON UPDATE " ++ updateRule ++ " ON DELETE " ++ deleteRule ++ ";")
        else if k.constraint_type = some "PRIMARY KEY" then
          execOn "SOURCE" ("ALTER TABLE " ++ tableName ++ " ADD PRIMARY KEY ("
            ++ jsOrS k.columns "column_name" ++ ");")
        else if k.constraint_type = some "UNIQUE" then
          execOn "SOURCE" ("ALTER TABLE " ++ tableName ++ " ADD CONSTRAINT " ++ columnName
            ++ " UNIQUE (" ++ jsOrS k.columns "column_name" ++ ");")
        else if k.constraint_type = some "CHECK" then
          execOn "SOURCE" ("ALTER TABLE " ++ tableName ++ " ADD CONSTRAINT " ++ columnName
            ++ " CHECK (" ++ jsOrS k.check_clause "CHECK_CONDITION" ++ ");")
        else
          execOn "SOURCE" ("ALTER TABLE " ++ tableName ++ " ADD CONSTRAINT " ++ columnName
            ++ " " ++ jsInterpOpt k.constraint_type ++ " ("
            ++ jsOrS k.columns "column_name" ++ ");")
    | _ => "-- Unable to generate constraint definition - missing constraint data"
  else if some d.diff_type = DiffType.CONSTRAINT_RENAMED then
    match d.target_value with
    | Value.constr k =>
        if k.constraint_type = some "UNIQUE" then
          execOn "SOURCE" ("-- Rename UNIQUE constraint to match target\nALTER TABLE "
            ++ tableName ++ " RENAME INDEX `" ++ jsInterpOpt d.sub_object_name ++ "` TO `"
            ++ k.constraint_name ++ "`;")
        else
          execOn "SOURCE" ("-- Rename constraint to match target\n-- Note: May require DROP and CREATE for some constraint types\nALTER TABLE "
            ++ tableName ++ " RENAME INDEX `" ++ jsInterpOpt d.sub_object_name ++ "` TO `"
            ++ k.constraint_name ++ "`;")
    | _ =>
        execOn "SOURCE" ("ALTER TABLE " ++ tableName ++ " RENAME INDEX `"
          ++ jsInterpOpt d.sub_object_name ++ "` TO `new_name`;")
  else if some d.diff_type = DiffType.TABLE_MISSING_TARGET then
    execOn "SOURCE" ("DROP TABLE IF EXISTS " ++ tableName ++ ";")
  else if some d.diff_type = DiffType.TABLE_MISSING_SOURCE then
    generateCreateTableSQL d.target_value tableName "SOURCE"
  else if some d.diff_type = DiffType.PARTITION_MISSING_TARGET then
    if d.sub_object_name = some "(all partitions)" then
      execOn "SOURCE" ("-- Remove partitioning from table\nALTER TABLE " ++ tableName
        ++ " REMOVE PARTITIONING;")
    else
      execOn "SOURCE" ("-- Drop partition to match target\nALTER TABLE " ++ tableName
        ++ " DROP PARTITION `" ++ jsInterpOpt d.sub_object_name ++ "`;")
  else if some d.diff_type = DiffType.PARTITION_MISSING_SOURCE then
    if d.sub_object_name = some "(all partitions)" then
      match d.target_value with
      | Value.part p =>
          let pmethod := jsOrS p.partition_method "RANGE"
          let expression := jsOrS p.partition_expression ""
          if ¬(p.partitions = []) then
            let partDefs := (sortByPos (fun e => e.2.ordinal_position.getD 0) p.partitions).map
              (fun e =>
                let desc := jsOrS e.2.description ""
                if pmethod = "LIST" then
                  "  PARTITION `" ++ e.1 ++ "` VALUES IN " ++ desc
                else
                  "  PARTITION `" ++ e.1 ++ "` VALUES LESS THAN (" ++ desc ++ ")")
            execOn "SOURCE" ("-- Add partitioning to table\nALTER TABLE " ++ tableName
              ++ "\nPARTITION BY " ++ pmethod ++ " (" ++ expression ++ ") (\n"
              ++ String.intercalate ",\n" partDefs ++ "\n);")
          else
            execOn "SOURCE" "-- Cannot generate partition SQL: missing partition info"
      | _ => execOn "SOURCE" "-- Cannot generate partition SQL: missing partition info"
    else
      match d.target_value with
      | Value.part p =>
          let partDesc := jsOrS p.description "VALUE"
          if ¬(strStartsWith partDesc "(") then
            execOn "SOURCE" ("-- Add partition to match target\nALTER TABLE " ++ tableName
              ++ " ADD PARTITION (PARTITION `" ++ jsInterpOpt d.sub_object_name
              ++ "` VALUES LESS THAN (" ++ partDesc ++ "));")
          else
            execOn "SOURCE" ("-- Add partition to match target\nALTER TABLE " ++ tableName
              ++ " ADD PARTITION (PARTITION `" ++ jsInterpOpt d.sub_object_name
              ++ "` VALUES IN " ++ partDesc ++ ");")
      | _ =>
          execOn "SOURCE" ("ALTER TABLE " ++ tableName ++ " ADD PARTITION (PARTITION `"
            ++ jsInterpOpt d.sub_object_name ++ "` VALUES LESS THAN (...));")
  else if some d.diff_type = DiffType.PARTITION_DEFINITION_CHANGED then
    if d.sub_object_name = some "partition_method"
        ∨ d.sub_object_name = some "partition_expression" then
      execOn "SOURCE" ("-- Changing " ++ jsInterpOpt d.sub_object_name
        ++ " requires table rebuild\n-- From: " ++ d.source_value.jsToString
        ++ "\n-- To: " ++ d.target_value.jsToString
        ++ "\n-- This requires exporting data and recreating the table")
    else
      match d.target_value with
      | Value.part p =>
          execOn "SOURCE" ("-- Reorganize partition to match target\nALTER TABLE "
            ++ tableName ++ " REORGANIZE PARTITION `" ++ jsInterpOpt d.sub_object_name
            ++ "` INTO (\n  PARTITION `" ++ jsInterpOpt d.sub_object_name
            ++ "` VALUES LESS THAN (" ++ jsOrS p.description "VALUE" ++ ")\n);")
      | _ =>
          execOn "SOURCE" ("-- Reorganize partition\nALTER TABLE " ++ tableName
            ++ " REORGANIZE PARTITION `" ++ jsInterpOpt d.sub_object_name ++ "` INTO (...);")
  else
    "-- Forward SQL for " ++ d.diff_type ++ " will be generated in sync script"

/-- `generateOption2SQL` (`DifferenceDetail.tsx` lines 739-1026): the
"Source → Target" emission rule (make Target like Source; execute on the
TARGET database). -/
def generateOption2SQL (d : Difference) : String :=
  let tableName := tableNameOf d
  let columnName := columnNameOf d
  if some d.diff_type = DiffType.COLUMN_ADDED then
    execOn "TARGET" ("ALTER TABLE " ++ tableName ++ " DROP COLUMN " ++ columnName ++ ";")
  else if some d.diff_type = DiffType.COLUMN_REMOVED then
    match d.source_value with
    | Value.vStr s =>
        if s == "" then
          execOn "TARGET" ("ALTER TABLE " ++ tableName ++ " ADD COLUMN " ++ columnName
            ++ " VARCHAR(255) NULL;")
        else
          execOn "TARGET" ("ALTER TABLE " ++ tableName ++ " ADD COLUMN " ++ columnName
            ++ " " ++ s ++ ";")
    | Value.col c =>
        let columnType := jsOr c.column_type c.data_type
        if tstr columnType then
          let nullable :=
            match c.is_nullable with
            | some b => if b then "NULL" else "NOT NULL"
            | none => ""
          let defaultValue :=
            match c.column_default with
            | none => ""
            | some dv =>
                let defVal := strUpper dv
                if defVal = "CURRENT_TIMESTAMP" ∨ defVal = "CURRENT_DATE"
                    ∨ defVal = "NULL" ∨ strStartsWith defVal "CURRENT_" then
                  " DEFAULT " ++ dv
                else
                  " DEFAULT '" ++ escapeSqlString dv ++ "'"
          let extra := if tstr c.extra then " " ++ c.extra.getD "" else ""
          execOn "TARGET" ("ALTER TABLE " ++ tableName ++ " ADD COLUMN " ++ columnName
            ++ " " ++ columnType.getD "" ++ " " ++ nullable ++ defaultValue ++ extra ++ ";")
        else
          execOn "TARGET" ("ALTER TABLE " ++ tableName ++ " ADD COLUMN " ++ columnName
            ++ " VARCHAR(255) NULL;")
    | _ =>
        execOn "TARGET" ("ALTER TABLE " ++ tableName ++ " ADD COLUMN " ++ columnName
          ++ " VARCHAR(255) NULL;")
  else if some d.diff_type = DiffType.COLUMN_TYPE_CHANGED then
    match d.source_value with
    | Value.col sourceInfo =>
        execOn "TARGET" ("ALTER TABLE " ++ tableName ++ " MODIFY COLUMN " ++ columnName
          ++ " " ++ buildColumnDefinition (Value.col sourceInfo) none none ++ ";")
    | Value.vStr s =>
        if s == "" then "-- Unable to determine source column type"
        else
          execOn "TARGET" ("ALTER TABLE " ++ tableName ++ " MODIFY COLUMN " ++ columnName
            ++ " " ++ s ++ ";")
    | v =>
        if v.truthy then
          execOn "TARGET" ("ALTER TABLE " ++ tableName ++ " MODIFY COLUMN " ++ columnName
            ++ " undefined;")
        else "-- Unable to determine source column type"
  else if some d.diff_type = DiffType.COLUMN_NULLABLE_CHANGED then
    match d.source_value with
    | Value.col sourceInfo =>
        execOn "TARGET" ("ALTER TABLE " ++ tableName ++ " MODIFY COLUMN " ++ columnName
          ++ " " ++ buildColumnDefinition (Value.col sourceInfo) none none ++ ";")
    | Value.undef => "-- Unable to determine source column info"
    | Value.vNull => "-- Unable to determine source column info"
    | v =>
        let nullable := if v.truthy then "NULL" else "NOT NULL"
        execOn "TARGET" ("ALTER TABLE " ++ tableName ++ " MODIFY COLUMN " ++ columnName
          ++ " VARCHAR(255) " ++ nullable ++ ";")
  else if some d.diff_type = DiffType.COLUMN_DEFAULT_CHANGED then
    match d.source_value with
    | Value.col sourceInfo =>
        execOn "TARGET" ("ALTER TABLE " ++ tableName ++ " MODIFY COLUMN " ++ columnName
          ++ " " ++ buildColumnDefinition (Value.col sourceInfo) none none ++ ";")
    | Value.undef => "-- Unable to determine source default value"
    | Value.vNull =>
        execOn "TARGET" ("ALTER TABLE " ++ tableName ++ " ALTER COLUMN " ++ columnName
          ++ " DROP DEFAULT;")
    | v =>
        let defaultVal := v.jsToString
        let quotedDefault :=
          if strStartsWith (strUpper defaultVal) "CURRENT_" ∨ strUpper defaultVal = "NULL"
          then defaultVal else "'" ++ defaultVal ++ "'"
        execOn "TARGET" ("ALTER TABLE " ++ tableName ++ " ALTER COLUMN " ++ columnName
          ++ " SET DEFAULT " ++ quotedDefault ++ ";")
  else if some d.diff_type = DiffType.COLUMN_EXTRA_CHANGED then
    match d.source_value with
    | Value.col sourceInfo =>
        execOn "TARGET" ("ALTER TABLE " ++ tableName ++ " MODIFY COLUMN " ++ columnName
          ++ " " ++ buildColumnDefinition (Value.col sourceInfo) none none ++ ";")
    | _ =>
        execOn "TARGET" ("-- Modify column extra properties\nALTER TABLE " ++ tableName
          ++ " MODIFY COLUMN " ++ columnName ++ " /* update properties */;")
  else if some d.diff_type = DiffType.COLUMN_RENAMED then
    match d.source_value with
    | Value.col sourceInfo =>
        let targetName := jsOrS d.target_display_value "target_name"
        let sourceName := jsInterpOpt (jsOr d.source_display_value d.sub_object_name)
        execOn "TARGET" ("-- Rename column to match source\nALTER TABLE " ++ tableName
          ++ " CHANGE COLUMN `" ++ targetName ++ "` `" ++ sourceName ++ "` "
          ++ buildColumnDefinition (Value.col sourceInfo) none none ++ ";")
    | _ =>
        execOn "TARGET" ("ALTER TABLE " ++ tableName ++ " CHANGE COLUMN `old_name` "
          ++ columnName ++ " /* column definition */;")
  else if some d.diff_type = DiffType.INDEX_MISSING_TARGET then
    match d.source_value with
    | Value.idx i =>
        let unique := if i.is_unique then "UNIQUE " else ""
        let columns0 : Option String :=
          match i.columns with
          | IdxCols.cnone => none
          | IdxCols.cstr s => some s
          | IdxCols.carr l => some (String.intercalate ", " l)
        let columns := if tstr columns0 then columns0.getD "" else "-- column_name --"
        let indexType :=
          if tstr i.index_type ∧ ¬(i.index_type = some "BTREE")
          then " USING " ++ i.index_type.getD "" else ""
        execOn "TARGET" ("CREATE " ++ unique ++ "INDEX " ++ columnName ++ " ON "
          ++ tableName ++ " (" ++ columns ++ ")" ++ indexType ++ ";")
    | _ =>
        execOn "TARGET" ("CREATE INDEX " ++ columnName ++ " ON " ++ tableName
          ++ " (-- column_name --);")
  else if some d.diff_type = DiffType.INDEX_MISSING_SOURCE then
    execOn "TARGET" ("DROP INDEX " ++ columnName ++ " ON " ++ tableName ++ ";")
  else if some d.diff_type = DiffType.INDEX_RENAMED then
    match d.target_value with
    | Value.idx i =>
        execOn "TARGET" ("-- Rename index to match source\nALTER TABLE " ++ tableName
          ++ " RENAME INDEX `" ++ i.index_name ++ "` TO `"
          ++ jsInterpOpt d.sub_object_name ++ "`;")
    | _ =>
        execOn "TARGET" ("ALTER TABLE " ++ tableName ++ " RENAME INDEX `old_name` TO `"
          ++ jsInterpOpt d.sub_object_name ++ "`;")
  else if some d.diff_type = DiffType.INDEX_DUPLICATE_SOURCE then
    "-- No action needed on TARGET\n-- Duplicate index exists only in SOURCE"
  else if some d.diff_type = DiffType.INDEX_DUPLICATE_TARGET then
    match d.target_value with
    | Value.idx i =>
        execOn "TARGET" ("-- Drop duplicate index (RECOMMENDED)\nDROP INDEX `"
          ++ i.index_name ++ "` ON " ++ tableName ++ ";")
    | _ =>
        execOn "TARGET" ("-- Drop duplicate index\nDROP INDEX `"
          ++ jsInterpOpt d.sub_object_name ++ "` ON " ++ tableName ++ ";")
  else if some d.diff_type = DiffType.CONSTRAINT_MISSING_TARGET then
    match d.source_value with
    | Value.constr k =>
        if k.constraint_type = some "FOREIGN KEY" then
          let columns := jsOrS k.columns "column_name"
          let refTable := "`" ++ k.referenced_table_schema ++ "`.`" ++ k.referenced_table_name ++ "`"
          let refColumns := jsOrS k.referenced_columns "ref_column"
          let updateRule := jsOrS k.update_rule "RESTRICT"
          let deleteRule := jsOrS k.delete_rule "RESTRICT"
          execOn "TARGET" ("ALTER TABLE " ++ tableName ++ " ADD CONSTRAINT " ++ columnName
            ++ " FOREIGN KEY (" ++ columns ++ ") REFERENCES " ++ refTable ++ " (" ++ refColumns
            ++ ") ON UPDATE " ++ updateRule ++ " ON DELETE " ++ deleteRule ++ ";")
        else if k.constraint_type = some "PRIMARY KEY" then
          execOn "TARGET" ("ALTER TABLE " ++ tableName ++ " ADD PRIMARY KEY ("
            ++ jsOrS k.columns "column_name" ++ ");")
        else if k.constraint_type = some "UNIQUE" then
          execOn "TARGET" ("ALTER TABLE " ++ tableName ++ " ADD CONSTRAINT " ++ columnName
            ++ " UNIQUE (" ++ jsOrS k.columns "column_name" ++ ");")
        else if k.constraint_type = some "CHECK" then
          execOn "TARGET" ("ALTER TABLE " ++ tableName ++ " ADD CONSTRAINT " ++ columnName
            ++ " CHECK (" ++ jsOrS k.check_clause "CHECK_CONDITION" ++ ");")
        else
          execOn "TARGET" ("ALTER TABLE " ++ tableName ++ " ADD CONSTRAINT " ++ columnName
            ++ " " ++ jsInterpOpt k.constraint_type ++ " ("
            ++ jsOrS k.columns "column_name" ++ ");")
    | _ => "-- Unable to generate constraint definition - missing constraint data"
  else if some d.diff_type = DiffType.CONSTRAINT_MISSING_SOURCE then
    match d.target_value with
    | Value.constr k =>
        if k.constraint_type = some "PRIMARY KEY" then
          execOn "TARGET" ("ALTER TABLE " ++ tableName ++ " DROP PRIMARY KEY;")
        else if k.constraint_type = some "FOREIGN KEY" then
          execOn "TARGET" ("ALTER TABLE " ++ tableName ++ " DROP FOREIGN KEY " ++ columnName ++ ";")
        else if k.constraint_type = some "UNIQUE" then
          execOn "TARGET" ("ALTER TABLE " ++ tableName ++ " DROP INDEX " ++ columnName ++ ";")
        else
          execOn "TARGET" ("ALTER TABLE " ++ tableName ++ " DROP CONSTRAINT " ++ columnName ++ ";")
    | _ =>
        execOn "TARGET" ("ALTER TABLE " ++ tableName ++ " DROP CONSTRAINT " ++ columnName ++ ";")
  else if some d.diff_type = DiffType.CONSTRAINT_RENAMED then
    match d.target_value with
    | Value.constr k =>
        if k.constraint_type = some "UNIQUE" then
          execOn "TARGET" ("-- Rename UNIQUE constraint to match source\nALTER TABLE "
            ++ tableName ++ " RENAME INDEX `" ++ k.constraint_name ++ "` TO `"
            ++ jsInterpOpt d.sub_object_name ++ "`;")
        else
          execOn "TARGET" ("-- Rename constraint to match source\n-- Note: May require DROP and CREATE for some constraint types\nALTER TABLE "
            ++ tableName ++ " RENAME INDEX `" ++ k.constraint_name ++ "` TO `"
            ++ jsInterpOpt d.sub_object_name ++ "`;")
    | _ =>
        execOn "TARGET" ("ALTER TABLE " ++ tableName ++ " RENAME INDEX `old_name` TO `"
          ++ jsInterpOpt d.sub_object_name ++ "`;")
  else if some d.diff_type = DiffType.TABLE_MISSING_TARGET then
    generateCreateTableSQL d.source_value tableName "TARGET"
  else if some d.diff_type = DiffType.TABLE_MISSING_SOURCE then
    execOn "TARGET" ("DROP TABLE IF EXISTS " ++ tableName ++ ";")
  else if some d.diff_type = DiffType.PARTITION_MISSING_TARGET then
    if d.sub_object_name = some "(all partitions)" then
      match d.source_value with
      | Value.part p =>
          let pmethod := jsOrS p.partition_method "RANGE"
          let expression := jsOrS p.partition_expression ""
          if ¬(p.partitions = []) then
            let partDefs := (sortByPos (fun e => e.2.ordinal_position.getD 0) p.partitions).map
              (fun e =>
                let desc := jsOrS e.2.description ""
                if pmethod = "LIST" then
                  "  PARTITION `" ++ e.1 ++ "` VALUES IN " ++ desc
                else
                  "  PARTITION `" ++ e.1 ++ "` VALUES LESS THAN (" ++ desc ++ ")")
            execOn "TARGET" ("-- Add partitioning to table\nALTER TABLE " ++ tableName
              ++ "\nPARTITION BY " ++ pmethod ++ " (" ++ expression ++ ") (\n"
              ++ String.intercalate ",\n" partDefs ++ "\n);")
          else
            execOn "TARGET" "-- Cannot generate partition SQL: missing partition info"
      | _ => execOn "TARGET" "-- Cannot generate partition SQL: missing partition info"
    else
      match d.source_value with
      | Value.part p =>
          let partDesc := jsOrS p.description "VALUE"
          if ¬(strStartsWith partDesc "(") then
            execOn "TARGET" ("-- Add partition to match source\nALTER TABLE " ++ tableName
              ++ " ADD PARTITION (PARTITION `" ++ jsInterpOpt d.sub_object_name
              ++ "` VALUES LESS THAN (" ++ partDesc ++ "));")
          else
            execOn "TARGET" ("-- Add partition to match source\nALTER TABLE " ++ tableName
              ++ " ADD PARTITION (PARTITION `" ++ jsInterpOpt d.sub_object_name
              ++ "` VALUES IN " ++ partDesc ++ ");")
      | _ =>
          execOn "TARGET" ("ALTER TABLE " ++ tableName ++ " ADD PARTITION (PARTITION `"
            ++ jsInterpOpt d.sub_object_name ++ "` VALUES LESS THAN (...));")
  else if some d.diff_type = DiffType.PARTITION_MISSING_SOURCE then
    if d.sub_object_name = some "(all partitions)" then
      execOn "TARGET" ("-- Remove partitioning from table\nALTER TABLE " ++ tableName
        ++ " REMOVE PARTITIONING;")
    else
      execOn "TARGET" ("-- Drop partition to match source\n-- WARNING: This will DELETE all data in the partition!\nALTER TABLE "
        ++ tableName ++ " DROP PARTITION `" ++ jsInterpOpt d.sub_object_name ++ "`;")
  else if some d.diff_type = DiffType.PARTITION_DEFINITION_CHANGED then
    if d.sub_object_name = some "partition_method"
        ∨ d.sub_object_name = some "partition_expression" then
      execOn "TARGET" ("-- Changing " ++ jsInterpOpt d.sub_object_name
        ++ " requires table rebuild\n-- From: " ++ d.target_value.jsToString
        ++ "\n-- To: " ++ d.source_value.jsToString
        ++ "\n-- This requires exporting data and recreating the table")
    else
      match d.source_value with
      | Value.part p =>
          execOn "TARGET" ("-- Reorganize partition to match source\nALTER TABLE "
            ++ tableName ++ " REORGANIZE PARTITION `" ++ jsInterpOpt d.sub_object_name
            ++ "` INTO (\n  PARTITION `" ++ jsInterpOpt d.sub_object_name
            ++ "` VALUES LESS THAN (" ++ jsOrS p.description "VALUE" ++ ")\n);")
      | _ =>
          execOn "TARGET" ("-- Reorganize partition\nALTER TABLE " ++ tableName
            ++ " REORGANIZE PARTITION `" ++ jsInterpOpt d.sub_object_name ++ "` INTO (...);")
  else
    "-- Rollback SQL for " ++ d.diff_type ++ " will be generated in sync script"

/-! ## The older UI-embedded emission variant (`src/unnamed/part_011`)

An earlier `DifferenceDetail` component with its own
`generateOption1SQL`/`generateOption2SQL` (lines 212-323 and 347-458).
It handles fewer diff types, emits no `-- Execute on ... database:` header
for the changed/constraint cases, and interpolates defaults raw
(`col.column_default ? \` DEFAULT ${col.column_default}\` : ''`). -/

/-- `generateOption1SQL` of the older variant (`part_011` lines 212-323). -/
def oldGenerateOption1SQL (d : Difference) : String :=
  let tableName := tableNameOf d
  let columnName := columnNameOf d
  if some d.diff_type = DiffType.COLUMN_ADDED then
    match d.target_value with
    | Value.vStr s =>
        if s == "" then
          execOn "SOURCE" ("ALTER TABLE " ++ tableName ++ " ADD COLUMN " ++ columnName
            ++ " VARCHAR(255) NULL;")
        else
          execOn "SOURCE" ("ALTER TABLE " ++ tableName ++ " ADD COLUMN " ++ columnName
            ++ " " ++ s ++ ";")
    | Value.col c =>
        let columnType := jsOr c.column_type c.data_type
        if tstr columnType then
          let nullable :=
            match c.is_nullable with
            | some b => if b then "NULL" else "NOT NULL"
            | none => ""
          let defaultValue :=
            if tstr c.column_default then " DEFAULT " ++ c.column_default.getD "" else ""
          let extra := if tstr c.extra then " " ++ c.extra.getD "" else ""
          execOn "SOURCE" ("ALTER TABLE " ++ tableName ++ " ADD COLUMN " ++ columnName
            ++ " " ++ columnType.getD "" ++ " " ++ nullable ++ defaultValue ++ extra ++ ";")
        else
          execOn "SOURCE" ("ALTER TABLE " ++ tableName ++ " ADD COLUMN " ++ columnName
            ++ " VARCHAR(255) NULL;")
    | _ =>
        execOn "SOURCE" ("ALTER TABLE " ++ tableName ++ " ADD COLUMN " ++ columnName
          ++ " VARCHAR(255) NULL;")
  else if some d.diff_type = DiffType.COLUMN_REMOVED then
    execOn "SOURCE" ("ALTER TABLE " ++ tableName ++ " DROP COLUMN " ++ columnName ++ ";")
  else if some d.diff_type = DiffType.COLUMN_TYPE_CHANGED then
    match d.target_value with
    | Value.vStr s =>
        if s == "" then "-- Unable to determine target column type"
        else "ALTER TABLE " ++ tableName ++ " MODIFY COLUMN " ++ columnName ++ " " ++ s ++ ";"
    | Value.col c =>
        let columnType := jsOr c.column_type c.data_type
        if tstr columnType then
          let nullable :=
            match c.is_nullable with
            | some b => if b then "NULL" else "NOT NULL"
            | none => ""
          let defaultValue :=
            if tstr c.column_default then " DEFAULT " ++ c.column_default.getD "" else ""
          let extra := if tstr c.extra then " " ++ c.extra.getD "" else ""
          "ALTER TABLE " ++ tableName ++ " MODIFY COLUMN " ++ columnName ++ " "
            ++ columnType.getD "" ++ " " ++ nullable ++ defaultValue ++ extra ++ ";"
        else "-- Unable to determine target column type"
    | _ => "-- Unable to determine target column type"
  else if some d.diff_type = DiffType.INDEX_MISSING_TARGET then
    execOn "SOURCE" ("DROP INDEX " ++ columnName ++ " ON " ++ tableName ++ ";")
  else if some d.diff_type = DiffType.INDEX_MISSING_SOURCE then
    match d.target_value with
    | Value.idx i =>
        let unique := if i.is_unique then "UNIQUE " else ""
        let columns0 : Option String :=
          match i.columns with
          | IdxCols.cnone => none
          | IdxCols.cstr s => some s
          | IdxCols.carr l => some (String.intercalate ", " l)
        let columns := if tstr columns0 then columns0.getD "" else "-- column_name --"
        let indexType :=
          if tstr i.index_type ∧ ¬(i.index_type = some "BTREE")
          then " USING " ++ i.index_type.getD "" else ""
        execOn "SOURCE" ("CREATE " ++ unique ++ "INDEX " ++ columnName ++ " ON "
          ++ tableName ++ " (" ++ columns ++ ")" ++ indexType ++ ";")
    | _ =>
        execOn "SOURCE" ("CREATE INDEX " ++ columnName ++ " ON " ++ tableName
          ++ " (-- column_name --);")
  else if some d.diff_type = DiffType.CONSTRAINT_MISSING_TARGET then
    match d.target_value with
    | Value.constr k =>
        if k.constraint_type = some "FOREIGN KEY" then
          let columns := jsOrS k.columns "column_name"
          let refTable := "`" ++ k.referenced_table_schema ++ "`.`" ++ k.referenced_table_name ++ "`"
          let refColumns := jsOrS k.referenced_columns "ref_column"
          let updateRule := jsOrS k.update_rule "RESTRICT"
          let deleteRule := jsOrS k.delete_rule "RESTRICT"
          "ALTER TABLE " ++ tableName ++ " ADD CONSTRAINT " ++ columnName
            ++ " FOREIGN KEY (" ++ columns ++ ") REFERENCES " ++ refTable ++ " (" ++ refColumns
            ++ ") ON UPDATE " ++ updateRule ++ " ON DELETE " ++ deleteRule ++ ";"
        else if k.constraint_type = some "PRIMARY KEY" then
          "ALTER TABLE " ++ tableName ++ " ADD PRIMARY KEY ("
            ++ jsOrS k.columns "column_name" ++ ");"
        else if k.constraint_type = some "UNIQUE" then
          "ALTER TABLE " ++ tableName ++ " ADD CONSTRAINT " ++ columnName
            ++ " UNIQUE (" ++ jsOrS k.columns "column_name" ++ ");"
        else
          "ALTER TABLE " ++ tableName ++ " ADD CONSTRAINT " ++ columnName ++ " ...;"
    | _ => "ALTER TABLE " ++ tableName ++ " ADD CONSTRAINT " ++ columnName ++ " ...;"
  else if some d.diff_type = DiffType.CONSTRAINT_MISSING_SOURCE then
    "ALTER TABLE " ++ tableName ++ " DROP CONSTRAINT " ++ columnName ++ ";"
  else if some d.diff_type = DiffType.TABLE_MISSING_TARGET then
    execOn "SOURCE" ("DROP TABLE IF EXISTS " ++ tableName ++ ";")
  else if some d.diff_type = DiffType.TABLE_MISSING_SOURCE then
    match d.target_value with
    | Value.table t =>
        let engine := if tstr t.engine then " ENGINE=" ++ t.engine.getD "" else " ENGINE=InnoDB"
        let collation := if tstr t.collation then " COLLATE=" ++ t.collation.getD "" else ""
        execOn "SOURCE" ("CREATE TABLE " ++ tableName
          ++ " (\n  -- Table structure will be generated in sync script\n)"
          ++ engine ++ collation ++ ";")
    | _ =>
        execOn "SOURCE" ("CREATE TABLE " ++ tableName
          ++ " (\n  -- Table structure will be generated in sync script\n) ENGINE=InnoDB;")
  else
    "-- Forward SQL for " ++ d.diff_type ++ " will be generated in sync script"

/-- `generateOption2SQL` of the older variant (`part_011` lines 347-458). -/
def oldGenerateOption2SQL (d : Difference) : String :=
  let tableName := tableNameOf d
  let columnName := columnNameOf d
  if some d.diff_type = DiffType.COLUMN_ADDED then
    execOn "TARGET" ("ALTER TABLE " ++ tableName ++ " DROP COLUMN " ++ columnName ++ ";")
  else if some d.diff_type = DiffType.COLUMN_REMOVED then
    match d.source_value with
    | Value.vStr s =>
        if s == "" then
          execOn "TARGET" ("ALTER TABLE " ++ tableName ++ " ADD COLUMN " ++ columnName
            ++ " VARCHAR(255) NULL;")
        else
          execOn "TARGET" ("ALTER TABLE " ++ tableName ++ " ADD COLUMN " ++ columnName
            ++ " " ++ s ++ ";")
    | Value.col c =>
        let columnType := jsOr c.column_type c.data_type
        if tstr columnType then
          let nullable :=
            match c.is_nullable with
            | some b => if b then "NULL" else "NOT NULL"
            | none => ""
          let defaultValue :=
            if tstr c.column_default then " DEFAULT " ++ c.column_default.getD "" else ""
          let extra := if tstr c.extra then " " ++ c.extra.getD "" else ""
          execOn "TARGET" ("ALTER TABLE " ++ tableName ++ " ADD COLUMN " ++ columnName
            ++ " " ++ columnType.getD "" ++ " " ++ nullable ++ defaultValue ++ extra ++ ";")
        else
          execOn "TARGET" ("ALTER TABLE " ++ tableName ++ " ADD COLUMN " ++ columnName
            ++ " VARCHAR(255) NULL;")
    | _ =>
        execOn "TARGET" ("ALTER TABLE " ++ tableName ++ " ADD COLUMN " ++ columnName
          ++ " VARCHAR(255) NULL;")
  else if some d.diff_type = DiffType.COLUMN_TYPE_CHANGED then
    match d.source_value with
    | Value.vStr s =>
        if s == "" then "-- Unable to determine source column type"
        else "ALTER TABLE " ++ tableName ++ " MODIFY COLUMN " ++ columnName ++ " " ++ s ++ ";"
    | Value.col c =>
        let columnType := jsOr c.column_type c.data_type
        if tstr columnType then
          let nullable :=
            match c.is_nullable with
            | some b => if b then "NULL" else "NOT NULL"
            | none => ""
          let defaultValue :=
            if tstr c.column_default then " DEFAULT " ++ c.column_default.getD "" else ""
          let extra := if tstr c.extra then " " ++ c.extra.getD "" else ""
          "ALTER TABLE " ++ tableName ++ " MODIFY COLUMN " ++ columnName ++ " "
            ++ columnType.getD "" ++ " " ++ nullable ++ defaultValue ++ extra ++ ";"
        else "-- Unable to determine source column type"
    | _ => "-- Unable to determine source column type"
  else if some d.diff_type = DiffType.INDEX_MISSING_TARGET then
    match d.source_value with
    | Value.idx i =>
        let unique := if i.is_unique then "UNIQUE " else ""
        let columns0 : Option String :=
          match i.columns with
          | IdxCols.cnone => none
          | IdxCols.cstr s => some s
          | IdxCols.carr l => some (String.intercalate ", " l)
        let columns := if tstr columns0 then columns0.getD "" else "-- column_name --"
        let indexType :=
          if tstr i.index_type ∧ ¬(i.index_type = some "BTREE")
          then " USING " ++ i.index_type.getD "" else ""
        execOn "TARGET" ("CREATE " ++ unique ++ "INDEX " ++ columnName ++ " ON "
          ++ tableName ++ " (" ++ columns ++ ")" ++ indexType ++ ";")
    | _ =>
        execOn "TARGET" ("CREATE INDEX " ++ columnName ++ " ON " ++ tableName
          ++ " (-- column_name --);")
  else if some d.diff_type = DiffType.INDEX_MISSING_SOURCE then
    execOn "TARGET" ("DROP INDEX " ++ columnName ++ " ON " ++ tableName ++ ";")
  else if some d.diff_type = DiffType.CONSTRAINT_MISSING_TARGET then
    "ALTER TABLE " ++ tableName ++ " DROP CONSTRAINT " ++ columnName ++ ";"
  else if some d.diff_type = DiffType.CONSTRAINT_MISSING_SOURCE then
    match d.source_value with
    | Value.constr k =>
        if k.constraint_type = some "FOREIGN KEY" then
          let columns := jsOrS k.columns "column_name"
          let refTable := "`" ++ k.referenced_table_schema ++ "`.`" ++ k.referenced_table_name ++ "`"
          let refColumns := jsOrS k.referenced_columns "ref_column"
          let updateRule := jsOrS k.update_rule "RESTRICT"
          let deleteRule := jsOrS k.delete_rule "RESTRICT"
          "ALTER TABLE " ++ tableName ++ " ADD CONSTRAINT " ++ columnName
            ++ " FOREIGN KEY (" ++ columns ++ ") REFERENCES " ++ refTable ++ " (" ++ refColumns
            ++ ") ON UPDATE " ++ updateRule ++ " ON DELETE " ++ deleteRule ++ ";"
        else if k.constraint_type = some "PRIMARY KEY" then
          "ALTER TABLE " ++ tableName ++ " ADD PRIMARY KEY ("
            ++ jsOrS k.columns "column_name" ++ ");"
        else if k.constraint_type = some "UNIQUE" then
          "ALTER TABLE " ++ tableName ++ " ADD CONSTRAINT " ++ columnName
            ++ " UNIQUE (" ++ jsOrS k.columns "column_name" ++ ");"
        else
          "-- ADD CONSTRAINT " ++ columnName ++ " with original definition;"
    | _ => "-- ADD CONSTRAINT " ++ columnName ++ " with original definition;"
  else if some d.diff_type = DiffType.TABLE_MISSING_TARGET then
    match d.source_value with
    | Value.table t =>
        let engine := if tstr t.engine then " ENGINE=" ++ t.engine.getD "" else " ENGINE=InnoDB"
        let collation := if tstr t.collation then " COLLATE=" ++ t.collation.getD "" else ""
        execOn "TARGET" ("CREATE TABLE " ++ tableName
          ++ " (\n  -- Table structure will be generated in sync script\n)"
          ++ engine ++ collation ++ ";")
    | _ =>
        execOn "TARGET" ("CREATE TABLE " ++ tableName
          ++ " (\n  -- Table structure will be generated in sync script\n) ENGINE=InnoDB;")
  else if some d.diff_type = DiffType.TABLE_MISSING_SOURCE then
    execOn "TARGET" ("DROP TABLE IF EXISTS " ++ tableName ++ ";")
  else
    "-- Rollback SQL for " ++ d.diff_type ++ " will be generated in sync script"

/-! ## Difference filtering (`src/frontend/components/DifferencesList.tsx`) -/

/-- The filter state of `DifferencesList` (lines 17-23); the empty string
means "filter inactive", exactly as in the component. -/
structure Filters where
  severity : String := ""
  objectType : String := ""
  schema : String := ""
  source : String := ""
  search : String := ""
deriving DecidableEq, Repr

/-- `getSourceType` (lines 43-52): classify a difference as
`source-only` / `target-only` / `both` from its lower-cased `diff_type`. -/
def getSourceType (d : Difference) : String :=
  let diffType := strLower d.diff_type
  if strIncludes diffType "missing_target" ∨ strIncludes diffType "removed" then
    "source-only"
  else if strIncludes diffType "missing_source" ∨ strIncludes diffType "added" then
    "target-only"
  else
    "both"

/-- The filter callback of `filteredDifferences` (lines 54-68), with its
early `return false` guards and the search branch returned last. -/
def diffMatchesFilters (f : Filters) (d : Difference) : Bool :=
  if ¬(f.severity = "") ∧ ¬(d.severity = f.severity) then false
  else if ¬(f.objectType = "") ∧ ¬(d.object_type = f.objectType) then false
  else if ¬(f.schema = "") ∧ ¬(d.schema_name = some f.schema) then false
  else if ¬(f.source = "") ∧ ¬(getSourceType d = f.source) then false
  else if ¬(f.search = "") then
    let searchLower := strLower f.search
    strIncludes (strLower d.object_name) searchLower
      || strIncludes (strLower d.description) searchLower
      || (match d.schema_name with
          | some s => strIncludes (strLower s) searchLower
          | none => false)
  else true

/-- `const filteredDifferences = differences.filter(...)` (line 54). -/
def filteredDifferences (f : Filters) (differences : List Difference) : List Difference :=
  differences.filter (diffMatchesFilters f)

/-- Specification-side predicate: a difference passes when it satisfies
every **active** filter simultaneously — severity equality, object-type
equality, schema-name equality, source-side classification, and
case-insensitive substring search over object name, description and schema
name.  Stated independently of the filter callback's early-return shape and
compared against it in the C8 theorem. -/
def specShown (f : Filters) (d : Difference) : Bool :=
  (f.severity == "" || d.severity == f.severity)
    && (f.objectType == "" || d.object_type == f.objectType)
    && (f.schema == "" || d.schema_name == some f.schema)
    && (f.source == "" || getSourceType d == f.source)
    && (f.search == ""
        || strIncludes (strLower d.object_name) (strLower f.search)
        || strIncludes (strLower d.description) (strLower f.search)
        || (match d.schema_name with
            | some s => strIncludes (strLower s) (strLower f.search)
            | none => false))

/-! ## Script analysis and execution flow (`src/unnamed/part_009`,
`ComparisonResults`) -/

/-- The `risks` object of a `ScriptAnalysisResponse` as consumed by the
execute dialog (risk level plus the listed destructive objects). -/
structure RiskReport where
  risk_level : String := "low"
  warnings : List String := []
  drop_tables : List String := []
  drop_columns : List String := []
deriving DecidableEq, Repr

/-- The response of `analyzeScript` stored in the `scriptAnalysis` state. -/
structure ScriptAnalysisResponse where
  risks : RiskReport := {}
  target_database : String := "target"
deriving DecidableEq, Repr

/-- Ghost record of one `executeScript` API invocation: the script sent, the
target database taken from the stored analysis, and that analysis itself. -/
structure ExecCall where
  script : String
  target_database : String
  analysis : ScriptAnalysisResponse
deriving DecidableEq, Repr

/-- The relevant React state of `ComparisonResults`:
`currentScript` (the cached script of the selected direction),
`scriptAnalysis`, `showExecuteDialog`, `executeResult` and `syncDirection`,
plus the ghost log `executeCalls` of `executeScript` invocations. -/
structure UIState where
  currentScript : Option String := none
  scriptAnalysis : Option ScriptAnalysisResponse := none
  showExecuteDialog : Bool := false
  executeResult : Bool := false
  syncDirection : String := "source_to_target"
  executeCalls : List ExecCall := []
deriving DecidableEq, Repr

/-- `getTargetDatabase` (lines 328-330). -/
def getTargetDatabase (st : UIState) : String :=
  if st.syncDirection = "source_to_target" then "target" else "source"

/-- `handleApplyScript` (lines 332-347): guard `if (!currentScript) return`,
then analyze the current script, store the analysis, clear any previous
result and open the confirmation dialog.  `analyze` abstracts the
`analyzeScript` API call (script, target database ↦ response). -/
def handleApplyScript (analyze : String → String → ScriptAnalysisResponse)
    (st : UIState) : UIState :=
  match st.currentScript with
  | none => st
  | some s =>
      if s == "" then st
      else
        { st with
          scriptAnalysis := some (analyze s (getTargetDatabase st)),
          executeResult := false,
          showExecuteDialog := true }

/-- `handleConfirmExecute` (lines 351-375): guard
`if (!currentScript || !scriptAnalysis) return` — without both a current
script and a stored analysis nothing is executed — then invoke
`executeScript(comparisonId, currentScript, scriptAnalysis.target_database)`
(recorded in the ghost log) and store the result. -/
def handleConfirmExecute (st : UIState) : UIState :=
  match st.currentScript, st.scriptAnalysis with
  | some s, some a =>
      if s == "" then st
      else
        { st with
          executeCalls := st.executeCalls ++ [⟨s, a.target_database, a⟩],
          executeResult := true }
  | _, _ => st

/-- Operator events of the execution flow.  `generate` models
`handleGenerateSyncScript` updating the direction and the cached script;
`confirm` is the dialog's execute button, which is only rendered inside
`showExecuteDialog && scriptAnalysis && (...)`; `closeDialog` is the
Cancel/Close button clearing dialog, analysis and result. -/
inductive UIEvent where
  | generate (script : Option String) (direction : String)
  | apply
  | confirm
  | closeDialog
deriving DecidableEq, Repr

/-- One step of the execution flow. -/
def stepUI (analyze : String → String → ScriptAnalysisResponse)
    (st : UIState) : UIEvent → UIState
  | .generate s dir => { st with currentScript := s, syncDirection := dir }
  | .apply => handleApplyScript analyze st
  | .confirm => if st.showExecuteDialog then handleConfirmExecute st else st
  | .closeDialog =>
      { st with showExecuteDialog := false, scriptAnalysis := none, executeResult := false }

/-- Run a list of operator events. -/
def runUI (analyze : String → String → ScriptAnalysisResponse)
    (st : UIState) : List UIEvent → UIState
  | [] => st
  | e :: es => runUI analyze (stepUI analyze st e) es

/-- The initial component state. -/
def initUIState : UIState := {}

/-! ## Statement execution (backend Executor) -/

/-- Per-statement outcome of a script execution (the `results` entries of
`ExecuteScriptResponse` rendered by `ComparisonResults`, lines 704-753). -/
structure StatementResult where
  statement : String
  success : Bool
  error : Option String
deriving DecidableEq, Repr

/-- Aggregate execution outcome (`ExecuteScriptResponse`: `success`,
`executed_statements`, `failed_statements`, `errors`, `results`). -/
structure ExecutionResult where
  success : Bool
  executed_statements : Nat
  failed_statements : Nat
  results : List StatementResult
  errors : List String
deriving DecidableEq, Repr

/-- Modelled from the spec: the backend Executor behind
`POST /sync/{id}/execute` is not part of `src/` (only its caller
`handleConfirmExecute` and the result rendering are).  Per spec §4.3 and §7,
execution runs the statements **sequentially**, continues past individual
failures (no whole-batch transaction), records per-statement
success/failure with the failing statement's text and error, and aggregates
`executed_statements`/`failed_statements` counts and the error list.
`exec` abstracts the per-statement connection: `none` is success, `some e`
failure with error text `e`. -/
def executeScriptModel (exec : String → Option String)
    (statements : List String) : ExecutionResult :=
  let results := statements.map (fun s =>
    match exec s with
    | none => { statement := s, success := true, error := none }
    | some e => { statement := s, success := false, error := some e })
  { success := results.all (fun r => r.success),
    executed_statements := (results.filter (fun r => r.success)).length,
    failed_statements := (results.filter (fun r => !r.success)).length,
    results := results,
    errors := results.filterMap (fun r => r.error) }

/-! ## Result export (`downloadResults`, `src/unnamed/part_009` lines 392-421) -/

/-- SSH tunnel configuration attached to a database config
(`SSHTunnelConfig` of `types/index.ts`, credential-bearing fields). -/
structure SshTunnelCfg where
  enabled : Bool := false
  ssh_host : String := ""
  ssh_port : Int := 22
  ssh_user : String := ""
  ssh_password : Option String := none
  private_key_content : Option String := none
deriving DecidableEq, Repr

/-- `DatabaseConfig` (`types/index.ts` lines 1-7, with the optional
`ssh_tunnel` of `DatabaseConfigWithSSH`). -/
structure DbConfig where
  host : String
  port : Int
  user : String
  password : String
  database : Option String := none
  ssh_tunnel : Option SshTunnelCfg := none
deriving DecidableEq, Repr

/-- The loaded `ComparisonResult` as far as `downloadResults` reads it. -/
structure ComparisonRes where
  comparison_id : String
  started_at : String := ""
  completed_at : Option String := none
  source_config : DbConfig
  target_config : DbConfig
  differences : List Difference := []
  errors : List String := []
  warnings : List String := []
deriving DecidableEq, Repr

/-- The sanitized config written to the export: by construction it has
**only** the `host`, `port` and `database` fields (`downloadResults` lines
399-410: "DO NOT include user, password, or SSH tunnel info"). -/
structure SanitizedConfig where
  host : String
  port : Int
  database : Option String
deriving DecidableEq, Repr

/-- The `sanitizedResult` object built by `downloadResults`: the spread of
the loaded result with both config objects replaced by their three-field
projections. -/
structure SanitizedResult where
  comparison_id : String
  started_at : String
  completed_at : Option String
  source_config : SanitizedConfig
  target_config : SanitizedConfig
  differences : List Difference
  errors : List String
  warnings : List String
deriving DecidableEq, Repr

/-- The projection `{ host, port, database }` applied to each config. -/
def sanitizeConfig (c : DbConfig) : SanitizedConfig :=
  { host := c.host, port := c.port, database := c.database }

/-- `downloadResults` lines 396-411: `{ ...result, source_config: {...},
target_config: {...} }`. -/
def sanitizeResult (r : ComparisonRes) : SanitizedResult :=
  { comparison_id := r.comparison_id,
    started_at := r.started_at,
    completed_at := r.completed_at,
    source_config := sanitizeConfig r.source_config,
    target_config := sanitizeConfig r.target_config,
    differences := r.differences,
    errors := r.errors,
    warnings := r.warnings }

/-- Serialize a sanitized config (the `JSON.stringify` fragment for one
config object; braces written via character escapes). -/
def renderConfig (c : SanitizedConfig) : String :=
  "\x7b\"host\": \"" ++ c.host ++ "\", \"port\": " ++ toString c.port
    ++ ", \"database\": "
    ++ (match c.database with
        | some db => "\"" ++ db ++ "\""
        | none => "null")
    ++ "\x7d"

/-- Serialize a sanitized result record (the `JSON.stringify` of the
sanitized object, modelled as a deterministic pure function of it). -/
def renderSanitized (s : SanitizedResult) : String :=
  "\x7b\"comparison_id\": \"" ++ s.comparison_id
    ++ "\", \"started_at\": \"" ++ s.started_at
    ++ "\", \"source_config\": " ++ renderConfig s.source_config
    ++ ", \"target_config\": " ++ renderConfig s.target_config
    ++ ", \"difference_count\": " ++ toString s.differences.length
    ++ "\x7d"

/-- The JSON text written to the exported file:
`JSON.stringify(sanitizedResult, null, 2)`. -/
def downloadJson (r : ComparisonRes) : String :=
  renderSanitized (sanitizeResult r)

/-! ## Derived definitions used by the verification statements -/

/-- The default clause `buildColumnDefinition` emits for a present default
value `dv`: raw for a recognized non-literal expression
(current-timestamp family or `NULL`), otherwise quoted with
`escapeSqlString`. -/
def defaultClauseOf (dv : String) : String :=
  if strUpper dv = "CURRENT_TIMESTAMP" ∨ strUpper dv = "CURRENT_DATE"
      ∨ strUpper dv = "NULL" ∨ strStartsWith (strUpper dv) "CURRENT_" then
    " DEFAULT " ++ dv
  else
    " DEFAULT '" ++ escapeSqlString dv ++ "'"

/-- The comment clause `buildColumnDefinition` emits for a present comment:
quote-doubled and single-quoted. -/
def commentClauseOf (c : Option String) : String :=
  " COMMENT '" ++ replaceQuotes (c.getD "") ++ "'"

/-- Swap the source and target sides of a difference (values and display
names), the transposition under which the two per-direction emission rules
are claimed to mirror each other. -/
def swapDiff (d : Difference) : Difference :=
  { d with
    source_value := d.target_value,
    target_value := d.source_value,
    source_display_value := d.target_display_value,
    target_display_value := d.source_display_value }

/-! ### Concrete inputs used by witnesses and counterexamples -/

/-- A target-side column bag with a non-empty comment and non-null default. -/
def bagC1ex : ColBag :=
  { column_type := some "VARCHAR(40)", is_nullable := some false,
    column_default := some "open", comment := some "state" }

/-- A `column_type_changed` difference whose both sides carry `bagC1ex`. -/
def dC1ex : Difference :=
  { diff_type := "column_type_changed", schema_name := some "appdb",
    object_name := "users", sub_object_name := some "status",
    source_value := Value.col bagC1ex, target_value := Value.col bagC1ex }

/-- A `column_added` difference (target side only). -/
def dC2cex : Difference :=
  { diff_type := "column_added", schema_name := some "appdb",
    object_name := "users", sub_object_name := some "age",
    target_value := Value.col { column_type := some "INT" } }

/-- A `column_type_changed` difference with a source-side column bag. -/
def dC2am : Difference :=
  { diff_type := "column_type_changed", schema_name := some "appdb",
    object_name := "users", sub_object_name := some "status",
    source_value := Value.col bagC1ex }

/-- A `column_default_changed` difference whose target value is the
primitive string `O'Brien` (the `SET DEFAULT` fallback path). -/
def dC3ex : Difference :=
  { diff_type := "column_default_changed", schema_name := some "appdb",
    object_name := "users", sub_object_name := some "name",
    target_value := Value.vStr "O'Brien" }

/-- A `column_added` difference whose target bag has default `O'Brien`
(the `ADD COLUMN` interpolation path). -/
def dC3add : Difference :=
  { diff_type := "column_added", schema_name := some "appdb",
    object_name := "users", sub_object_name := some "nick",
    target_value := Value.col
      { column_type := some "VARCHAR(30)", is_nullable := some true,
        column_default := some "O'Brien" } }

/-- A `column_default_changed` difference with primitive target `O'Connor`. -/
def dC4ex : Difference :=
  { diff_type := "column_default_changed", schema_name := some "appdb",
    object_name := "users", sub_object_name := some "nick",
    target_value := Value.vStr "O'Connor" }

/-- A column bag whose comment contains a backslash. -/
def bagC4 : ColBag :=
  { column_type := some "INT", is_nullable := some false,
    comment := some "path\\dir" }

/-- A difference tagged with the string `column_renamed` (the tag the spec
expects a rename classification to carry), with a full column bag. -/
def dC5ren : Difference :=
  { diff_type := "column_renamed", schema_name := some "appdb",
    object_name := "users", sub_object_name := some "old_name",
    source_display_value := some "old_name", target_display_value := some "new_name",
    target_value := Value.col bagC1ex }

/-- Counterexample input for the variant-equivalence claim: a
`column_type_changed` difference with a full target bag. -/
def dC9ex : Difference :=
  { diff_type := "column_type_changed", schema_name := some "appdb",
    object_name := "users", sub_object_name := some "status",
    target_value := Value.col bagC1ex }

/-- An `index_missing_source` difference with a target index bag. -/
def dC9w : Difference :=
  { diff_type := "index_missing_source", schema_name := some "appdb",
    object_name := "users", sub_object_name := some "idx_email",
    target_value := Value.idx
      { index_name := "idx_email", index_type := some "BTREE",
        is_unique := true, columns := IdxCols.carr ["email", "tenant_id"] } }

/-- A difference used by the filtering witness. -/
def dC8w : Difference :=
  { diff_type := "column_type_changed", severity := "high",
    object_type := "column", schema_name := some "appdb",
    object_name := "users", description := "Column type differs" }

/-- A concrete analysis function (the `analyzeScript` API modelled as a
function of script and target database). -/
def analyzeW : String → String → ScriptAnalysisResponse :=
  fun _ db =>
    { risks := { risk_level := "high", warnings := ["DROP TABLE detected"],
                 drop_tables := ["orders"], drop_columns := [] },
      target_database := db }

/-- A state with a cached script but no stored analysis. -/
def stA : UIState := { currentScript := some "DROP TABLE `orders`;" }

/-- A state with the dialog open over a stored analysis. -/
def stB : UIState :=
  { currentScript := some "DROP TABLE `orders`;",
    scriptAnalysis := some (analyzeW "DROP TABLE `orders`;" "target"),
    showExecuteDialog := true }

/-- Generate, analyze, confirm. -/
def esW : List UIEvent :=
  [UIEvent.generate (some "DROP TABLE `orders`;") "source_to_target",
   UIEvent.apply, UIEvent.confirm]

/-- The execution call the trace `esW` produces. -/
def cW : ExecCall :=
  { script := "DROP TABLE `orders`;", target_database := "target",
    analysis := analyzeW "DROP TABLE `orders`;" "target" }

/-- A statement executor failing exactly on the malformed second statement. -/
def execW : String → Option String :=
  fun s => if s == "BAD SQL STATEMENT" then some "You have an error in your SQL syntax" else none

/-! ## Supporting lemmas -/

set_option maxRecDepth 8000

theorem strData_append (a b : String) : (a ++ b).data = a.data ++ b.data := by
  cases a; cases b; rfl

theorem strExt {a b : String} (h : a.data = b.data) : a = b := by
  cases a; cases b; cases h; rfl

theorem dropWhile_append_not_all (p : Char → Bool) (l1 l2 : List Char)
    (h : l1.all p = false) :
    (l1 ++ l2).dropWhile p = l1.dropWhile p ++ l2 := by
  induction l1 with
  | nil => simp at h
  | cons c t ih =>
      by_cases hc : p c = true
      · have ht : t.all p = false := by simpa [List.all_cons, hc] using h
        simp [List.dropWhile_cons, hc, ih ht]
      · simp [List.dropWhile_cons, hc]

theorem trimL_decompose (A R : List Char) (c : Char) (hA : A.all wsChar = false)
    (hc : wsChar c = false) :
    trimL (A ++ (R ++ [c])) = A.dropWhile wsChar ++ (R ++ [c]) := by
  unfold trimL
  rw [dropWhile_append_not_all wsChar A (R ++ [c]) hA]
  simp [List.reverse_append, List.dropWhile_cons, hc, List.append_assoc,
    List.reverse_reverse, List.singleton_append]

theorem jsTrim_split (A D E Ccore : String) (hA : A.data.all wsChar = false) :
    jsTrim (A ++ D ++ E ++ (Ccore ++ "'")) =
      String.mk (A.data.dropWhile wsChar) ++ D ++ E ++ (Ccore ++ "'") := by
  have hdata : (A ++ D ++ E ++ (Ccore ++ "'")).data
      = A.data ++ ((D.data ++ E.data ++ Ccore.data) ++ ['\'']) := by
    simp [strData_append, List.append_assoc, show ("'" : String).data = ['\''] from rfl]
  have hL : jsTrim (A ++ D ++ E ++ (Ccore ++ "'"))
      = String.mk (trimL ((A ++ D ++ E ++ (Ccore ++ "'")).data)) := rfl
  rw [hL, hdata, trimL_decompose _ _ _ hA (by decide)]
  apply strExt
  simp [strData_append, List.append_assoc, show ("'" : String).data = ['\''] from rfl]

theorem buildColumnDefinition_decompose (b : ColBag) (dv cs : String)
    (hdef : b.column_default = some dv) (hcm : b.comment = some cs)
    (hcs : (cs == "") = false) :
    ∃ pre mid, buildColumnDefinition (Value.col b) none none =
      pre ++ defaultClauseOf dv ++ mid ++ commentClauseOf (some cs) := by
  obtain ⟨ct, dt, chs, coll, isn, cd, ex, cm, ck, op⟩ := b
  cases hdef
  cases hcm
  have hts : tstr (some cs) = true := by simp [tstr, hcs]
  have hA : ((jsOrS none (jsOrS ct (jsOrS dt "VARCHAR(255)"))
      ++ (if tstr chs then " CHARACTER SET " ++ chs.getD "" else "")
      ++ (if tstr coll then " COLLATE " ++ coll.getD "" else "")
      ++ " "
      ++ (if isn = some true then "NULL" else "NOT NULL")).data).all wsChar = false := by
    rw [List.all_eq_false]
    refine ⟨'N', ?_, by decide⟩
    rw [strData_append]
    apply List.mem_append_right
    by_cases hn : isn = some true
    · simp only [hn, if_pos]
      decide
    · rw [if_neg hn]
      decide
  have key : buildColumnDefinition
        (Value.col ⟨ct, dt, chs, coll, isn, some dv, ex, some cs, ck, op⟩) none none
      = String.mk (((jsOrS none (jsOrS ct (jsOrS dt "VARCHAR(255)"))
            ++ (if tstr chs then " CHARACTER SET " ++ chs.getD "" else "")
            ++ (if tstr coll then " COLLATE " ++ coll.getD "" else "")
            ++ " "
            ++ (if isn = some true then "NULL" else "NOT NULL")).data).dropWhile wsChar)
          ++ defaultClauseOf dv
          ++ (if tstr ex then " " ++ ex.getD "" else "")
          ++ commentClauseOf (some cs) := by
    show jsTrim
        (jsOrS none (jsOrS ct (jsOrS dt "VARCHAR(255)"))
          ++ (if tstr chs then " CHARACTER SET " ++ chs.getD "" else "")
          ++ (if tstr coll then " COLLATE " ++ coll.getD "" else "")
          ++ " "
          ++ (if isn = some true then "NULL" else "NOT NULL")
          ++ defaultClauseOf dv
          ++ (if tstr ex then " " ++ ex.getD "" else "")
          ++ (if tstr (some cs) then
                " COMMENT '" ++ replaceQuotes ((some cs).getD "") ++ "'" else ""))
      = _
    rw [if_pos hts]
    rw [show (" COMMENT '" ++ replaceQuotes ((some cs).getD "") ++ "'")
          = (" COMMENT '" ++ replaceQuotes ((some cs).getD "")) ++ "'" from rfl]
    rw [jsTrim_split _ _ _ _ hA]
    rfl
  exact ⟨_, _, key⟩

theorem stepUI_analysis_provenance (analyze : String → String → ScriptAnalysisResponse)
    (st : UIState) (e : UIEvent)
    (h1 : ∀ a, st.scriptAnalysis = some a → ∃ s db, a = analyze s db)
    (h2 : ∀ c ∈ st.executeCalls,
      ∃ s db, c.analysis = analyze s db ∧ c.target_database = (analyze s db).target_database) :
    (∀ a, (stepUI analyze st e).scriptAnalysis = some a → ∃ s db, a = analyze s db)
    ∧ (∀ c ∈ (stepUI analyze st e).executeCalls,
        ∃ s db, c.analysis = analyze s db ∧ c.target_database = (analyze s db).target_database) := by
  obtain ⟨cs, sa, sd, er, dir, calls⟩ := st
  dsimp only at h1 h2
  cases e with
  | generate s d => exact ⟨h1, h2⟩
  | apply =>
      cases cs with
      | none => exact ⟨h1, h2⟩
      | some s =>
          by_cases hs : (s == "") = true
          · simp only [stepUI, handleApplyScript, hs, if_true]
            exact ⟨h1, h2⟩
          · simp only [stepUI, handleApplyScript, hs, if_false]
            refine ⟨?_, h2⟩
            intro a ha
            cases ha
            exact ⟨s, _, rfl⟩
  | confirm =>
      cases sd with
      | false => exact ⟨h1, h2⟩
      | true =>
          cases cs with
          | none => exact ⟨h1, h2⟩
          | some s =>
              cases sa with
              | none => exact ⟨h1, h2⟩
              | some a =>
                  by_cases hs : (s == "") = true
                  · simp only [stepUI, handleConfirmExecute, hs, if_true, if_pos]
                    exact ⟨h1, h2⟩
                  · simp only [stepUI, handleConfirmExecute, hs, if_false, if_pos]
                    refine ⟨h1, ?_⟩
                    intro c hc
                    rcases List.mem_append.mp hc with hold | hnew
                    · exact h2 c hold
                    · obtain ⟨s', db', ha'⟩ := h1 a rfl
                      rcases List.mem_singleton.mp hnew with rfl
                      exact ⟨s', db', by simpa using congrArg id ha', by simp [ha']⟩
  | closeDialog =>
      refine ⟨?_, h2⟩
      intro a ha
      simp [stepUI] at ha

theorem runUI_analysis_provenance (analyze : String → String → ScriptAnalysisResponse)
    (es : List UIEvent) (st : UIState)
    (h1 : ∀ a, st.scriptAnalysis = some a → ∃ s db, a = analyze s db)
    (h2 : ∀ c ∈ st.executeCalls,
      ∃ s db, c.analysis = analyze s db ∧ c.target_database = (analyze s db).target_database) :
    ∀ c ∈ (runUI analyze st es).executeCalls,
      ∃ s db, c.analysis = analyze s db ∧ c.target_database = (analyze s db).target_database := by
  induction es generalizing st with
  | nil => exact h2
  | cons e es ih =>
      obtain ⟨g1, g2⟩ := stepUI_analysis_provenance analyze st e h1 h2
      exact ih (stepUI analyze st e) g1 g2

/-- C1: for a `column_type_changed` difference whose authoritative-side value
(target for the make-source-like-target rule, source for the
make-target-like-source rule) is a column bag with a non-empty comment and a
non-null default, the emitted statement is a `MODIFY COLUMN` rebuilding the
complete definition via `buildColumnDefinition`, and that definition contains
both a `DEFAULT` clause and a `COMMENT` clause built from the bag. -/
theorem c1_column_rewrite_completeness (d : Difference) (b : ColBag) (dv : String)
    (hdt : d.diff_type = "column_type_changed")
    (hdef : b.column_default = some dv)
    (hcomm : tstr b.comment = true) :
    (d.target_value = Value.col b →
      generateOption1SQL d =
        execOn "SOURCE" ("ALTER TABLE " ++ tableNameOf d ++ " MODIFY COLUMN "
          ++ columnNameOf d ++ " " ++ buildColumnDefinition (Value.col b) none none ++ ";"))
  ∧ (d.source_value = Value.col b →
      generateOption2SQL d =
        execOn "TARGET" ("ALTER TABLE " ++ tableNameOf d ++ " MODIFY COLUMN "
          ++ columnNameOf d ++ " " ++ buildColumnDefinition (Value.col b) none none ++ ";"))
  ∧ (∃ pre mid, buildColumnDefinition (Value.col b) none none =
      pre ++ defaultClauseOf dv ++ mid ++ commentClauseOf b.comment) := by
  obtain ⟨cs, hcm⟩ : ∃ cs, b.comment = some cs := by
    cases hcmm : b.comment with
    | none => rw [hcmm] at hcomm; simp [tstr] at hcomm
    | some cs => exact ⟨cs, rfl⟩
  have hcs : (cs == "") = false := by
    rw [hcm] at hcomm
    simpa [tstr] using hcomm
  refine ⟨?_, ?_, ?_⟩
  · intro htv
    obtain ⟨dt', sev, ot, sn, onm, sub, sv, tv, sdv, tdv, desc, caf, fo, w⟩ := d
    dsimp only at hdt htv
    subst hdt
    subst htv
    rfl
  · intro hsv
    obtain ⟨dt', sev, ot, sn, onm, sub, sv, tv, sdv, tdv, desc, caf, fo, w⟩ := d
    dsimp only at hdt hsv
    subst hdt
    subst hsv
    rfl
  · rw [hcm]
    exact buildColumnDefinition_decompose b dv cs hdef hcm hcs

/-- C1 witness: the theorem applied to the concrete difference `dC1ex`. -/
theorem c1_column_rewrite_completeness_witness :
    generateOption1SQL dC1ex =
      execOn "SOURCE" ("ALTER TABLE " ++ tableNameOf dC1ex ++ " MODIFY COLUMN "
        ++ columnNameOf dC1ex ++ " " ++ buildColumnDefinition (Value.col bagC1ex) none none ++ ";")
  ∧ (∃ pre mid, buildColumnDefinition (Value.col bagC1ex) none none =
      pre ++ defaultClauseOf "open" ++ mid ++ commentClauseOf bagC1ex.comment) := by
  have h := c1_column_rewrite_completeness dC1ex bagC1ex "open" rfl rfl rfl
  exact ⟨h.1 rfl, h.2.2⟩

/-- C2 counterexample: for a `column_added` difference the two rules are not
mirrors — `generateOption2SQL` drops the column on TARGET while
`generateOption1SQL` on the side-swapped difference adds a column on SOURCE,
so exchanging the database labels does not make the texts agree. -/
theorem c2_mirror_counterexample :
    generateOption1SQL (swapDiff dC2cex)
      = "-- Execute on SOURCE database:\nALTER TABLE `appdb`.`users` ADD COLUMN `age` VARCHAR(255) NULL;"
  ∧ generateOption2SQL dC2cex
      = "-- Execute on TARGET database:\nALTER TABLE `appdb`.`users` DROP COLUMN `age`;"
  ∧ (generateOption2SQL dC2cex
      == "-- Execute on TARGET database:\nALTER TABLE `appdb`.`users` ADD COLUMN `age` VARCHAR(255) NULL;") = false :=
  ⟨rfl, rfl, rfl⟩

/-- C2 (amended): the mirror law holds for the modify-in-place column diff
types — for a difference of type `column_type_changed`,
`column_nullable_changed`, `column_default_changed` or
`column_extra_changed` whose source value is a column bag,
`generateOption2SQL d` and `generateOption1SQL (swapDiff d)` agree up to the
exchange of the SOURCE/TARGET database labels. -/
theorem c2_mirror_for_column_modifications (d : Difference) (b : ColBag)
    (hdt : d.diff_type = "column_type_changed" ∨ d.diff_type = "column_nullable_changed"
      ∨ d.diff_type = "column_default_changed" ∨ d.diff_type = "column_extra_changed")
    (hsv : d.source_value = Value.col b) :
    ∃ r, generateOption1SQL (swapDiff d) = "-- Execute on SOURCE database:\n" ++ r
       ∧ generateOption2SQL d = "-- Execute on TARGET database:\n" ++ r := by
  obtain ⟨dt', sev, ot, sn, onm, sub, sv, tv, sdv, tdv, desc, caf, fo, w⟩ := d
  dsimp only at hdt hsv
  subst hsv
  rcases hdt with h | h | h | h <;> subst h <;> exact ⟨_, rfl, rfl⟩

/-- C2 witness: the amended mirror law at the concrete difference `dC2am`. -/
theorem c2_mirror_for_column_modifications_witness :
    ∃ r, generateOption1SQL (swapDiff dC2am) = "-- Execute on SOURCE database:\n" ++ r
       ∧ generateOption2SQL dC2am = "-- Execute on TARGET database:\n" ++ r :=
  c2_mirror_for_column_modifications dC2am bagC1ex (Or.inl rfl) rfl

/-- C3: evaluation of the default-quoting paths.  `buildColumnDefinition`
and the `ADD COLUMN` path quote and escape (`O'Brien` → `'O''Brien'`,
`CURRENT_TIMESTAMP` unquoted), but the `SET DEFAULT` fallback of
`column_default_changed` interpolates the primitive default quoted yet
unescaped (`'O'Brien'`), contradicting the claim for that path. -/
theorem c3_default_quoting_evaluation :
    buildColumnDefinition (Value.col
      { column_type := some "VARCHAR(20)", is_nullable := some false,
        column_default := some "O'Brien" }) none none
      = "VARCHAR(20) NOT NULL DEFAULT 'O''Brien'"
  ∧ buildColumnDefinition (Value.col
      { column_type := some "TIMESTAMP", is_nullable := some false,
        column_default := some "CURRENT_TIMESTAMP" }) none none
      = "TIMESTAMP NOT NULL DEFAULT CURRENT_TIMESTAMP"
  ∧ generateOption1SQL dC3add
      = "-- Execute on SOURCE database:\nALTER TABLE `appdb`.`users` ADD COLUMN `nick` VARCHAR(30) NULL DEFAULT 'O''Brien';"
  ∧ generateOption1SQL dC3ex
      = "-- Execute on SOURCE database:\nALTER TABLE `appdb`.`users` ALTER COLUMN `name` SET DEFAULT 'O'Brien';" :=
  ⟨rfl, rfl, rfl, rfl⟩

/-- C4: evaluation of the escaping paths.  `escapeSqlString` doubles
backslashes and quotes, but the comment clause of `buildColumnDefinition`
only doubles quotes (a backslash in a comment is interpolated undoubled),
and the `SET DEFAULT` fallback interpolates the default with no escaping at
all, contradicting the claim that every path applies both doublings. -/
theorem c4_escaping_evaluation :
    escapeSqlString "path\\dir" = "path\\\\dir"
  ∧ buildColumnDefinition (Value.col bagC4) none none
      = "INT NOT NULL COMMENT 'path\\dir'"
  ∧ generateOption1SQL dC4ex
      = "-- Execute on SOURCE database:\nALTER TABLE `appdb`.`users` ALTER COLUMN `nick` SET DEFAULT 'O'Connor';" :=
  ⟨rfl, rfl, rfl⟩

/-- C5: the `DiffType` enumeration defines no `column_renamed`,
`index_renamed`, `index_duplicate_source`, `index_duplicate_target` or
`constraint_renamed` member; the member accesses the emission switch
performs on those names yield `undefined` (`none`), so the corresponding
branches can never match any difference, and a difference tagged
`column_renamed` falls through to the placeholder default branch. -/
theorem c5_renamed_duplicate_members_absent :
    (DiffType.values.contains "column_renamed" = false
      ∧ DiffType.values.contains "index_renamed" = false
      ∧ DiffType.values.contains "index_duplicate_source" = false
      ∧ DiffType.values.contains "index_duplicate_target" = false
      ∧ DiffType.values.contains "constraint_renamed" = false)
  ∧ (DiffType.COLUMN_RENAMED = none ∧ DiffType.INDEX_RENAMED = none
      ∧ DiffType.INDEX_DUPLICATE_SOURCE = none ∧ DiffType.INDEX_DUPLICATE_TARGET = none
      ∧ DiffType.CONSTRAINT_RENAMED = none)
  ∧ (∀ d : Difference,
      ((some d.diff_type = DiffType.COLUMN_RENAMED) = False)
      ∧ ((some d.diff_type = DiffType.INDEX_RENAMED) = False)
      ∧ ((some d.diff_type = DiffType.INDEX_DUPLICATE_SOURCE) = False)
      ∧ ((some d.diff_type = DiffType.INDEX_DUPLICATE_TARGET) = False)
      ∧ ((some d.diff_type = DiffType.CONSTRAINT_RENAMED) = False))
  ∧ generateOption1SQL dC5ren
      = "-- Forward SQL for column_renamed will be generated in sync script"
  ∧ generateOption2SQL dC5ren
      = "-- Rollback SQL for column_renamed will be generated in sync script" := by
  refine ⟨by decide, ⟨rfl, rfl, rfl, rfl, rfl⟩, fun d => ?_, rfl, rfl⟩
  exact ⟨eq_false (by simp [DiffType.COLUMN_RENAMED]),
    eq_false (by simp [DiffType.INDEX_RENAMED]),
    eq_false (by simp [DiffType.INDEX_DUPLICATE_SOURCE]),
    eq_false (by simp [DiffType.INDEX_DUPLICATE_TARGET]),
    eq_false (by simp [DiffType.CONSTRAINT_RENAMED])⟩

/-- C6: execution is gated on a stored, shown and confirmed risk analysis —
`handleConfirmExecute` returns without executing whenever no analysis is
stored; the execution log only ever grows through the dialog's confirm
event fired with the dialog shown and an analysis stored; and every
recorded `executeScript` invocation carries an analysis that was produced
by the analyze call (with its target database). -/
theorem c6_execution_gated (analyze : String → String → ScriptAnalysisResponse) :
    (∀ st : UIState, st.scriptAnalysis = none → handleConfirmExecute st = st)
  ∧ (∀ (st : UIState) (e : UIEvent),
      ¬((stepUI analyze st e).executeCalls = st.executeCalls) →
        e = UIEvent.confirm ∧ st.showExecuteDialog = true ∧ ¬(st.scriptAnalysis = none))
  ∧ (∀ (es : List UIEvent) (c : ExecCall),
      c ∈ (runUI analyze initUIState es).executeCalls →
        ∃ s db, c.analysis = analyze s db
          ∧ c.target_database = (analyze s db).target_database) := by
  refine ⟨?_, ?_, ?_⟩
  · intro st h
    obtain ⟨cs, sa, sd, er, dir, calls⟩ := st
    dsimp only at h
    subst h
    cases cs <;> rfl
  · intro st e h
    obtain ⟨cs, sa, sd, er, dir, calls⟩ := st
    cases e with
    | generate s dir' => exact absurd rfl h
    | apply =>
        exfalso
        apply h
        cases cs with
        | none => rfl
        | some s =>
            by_cases hs : (s == "") = true
            · simp [stepUI, handleApplyScript, hs]
            · simp [stepUI, handleApplyScript, hs]
    | confirm =>
        cases sd with
        | false => exact absurd rfl h
        | true =>
            refine ⟨rfl, rfl, ?_⟩
            intro hsa
            dsimp only at hsa
            subst hsa
            apply h
            cases cs <;> rfl
    | closeDialog => exact absurd rfl h
  · intro es c hc
    refine runUI_analysis_provenance analyze es initUIState ?_ ?_ c hc
    · intro a ha
      simp [initUIState] at ha
    · intro c' hc'
      simp [initUIState] at hc'

/-- C6 witness: the gating theorem applied to concrete states and the
concrete trace generate–analyze–confirm. -/
theorem c6_execution_gated_witness :
    handleConfirmExecute stA = stA
  ∧ (UIEvent.confirm = UIEvent.confirm ∧ stB.showExecuteDialog = true
      ∧ ¬(stB.scriptAnalysis = none))
  ∧ (∃ s db, cW.analysis = analyzeW s db
      ∧ cW.target_database = (analyzeW s db).target_database) := by
  refine ⟨(c6_execution_gated analyzeW).1 stA rfl, ?_, ?_⟩
  · exact (c6_execution_gated analyzeW).2.1 stB UIEvent.confirm (by decide)
  · exact (c6_execution_gated analyzeW).2.2 esW cW (by decide)

/-- C7: partial-failure execution semantics of the Executor (modelled from
the spec, §4.3/§7/§8): a three-statement script whose second statement
fails yields `executed_statements = 2` and `failed_statements = 1`; the
third statement is executed and recorded independently of the second's
failure; each statement's outcome is recorded with its text, the failing
one with its error. -/
theorem c7_partial_failure_semantics (exec : String → Option String) (s1 s2 s3 e : String)
    (h1 : exec s1 = none) (h2 : exec s2 = some e) (h3 : exec s3 = none) :
    (executeScriptModel exec [s1, s2, s3]).executed_statements = 2
  ∧ (executeScriptModel exec [s1, s2, s3]).failed_statements = 1
  ∧ (executeScriptModel exec [s1, s2, s3]).results =
      [{ statement := s1, success := true, error := none },
       { statement := s2, success := false, error := some e },
       { statement := s3, success := true, error := none }]
  ∧ (executeScriptModel exec [s1, s2, s3]).success = false
  ∧ (executeScriptModel exec [s1, s2, s3]).errors = [e] := by
  refine ⟨?_, ?_, ?_, ?_, ?_⟩ <;>
    simp [executeScriptModel, h1, h2, h3, List.filter, List.filterMap]

/-- C7 witness: the semantics at a concrete three-statement script whose
second statement is invalid SQL. -/
theorem c7_partial_failure_semantics_witness :
    (executeScriptModel execW
      ["ALTER TABLE `t` ADD COLUMN `a` INT;", "BAD SQL STATEMENT",
       "ALTER TABLE `t` ADD COLUMN `c` INT;"]).executed_statements = 2
  ∧ (executeScriptModel execW
      ["ALTER TABLE `t` ADD COLUMN `a` INT;", "BAD SQL STATEMENT",
       "ALTER TABLE `t` ADD COLUMN `c` INT;"]).failed_statements = 1
  ∧ (executeScriptModel execW
      ["ALTER TABLE `t` ADD COLUMN `a` INT;", "BAD SQL STATEMENT",
       "ALTER TABLE `t` ADD COLUMN `c` INT;"]).results =
      [{ statement := "ALTER TABLE `t` ADD COLUMN `a` INT;", success := true, error := none },
       { statement := "BAD SQL STATEMENT", success := false,
         error := some "You have an error in your SQL syntax" },
       { statement := "ALTER TABLE `t` ADD COLUMN `c` INT;", success := true, error := none }]
  ∧ (executeScriptModel execW
      ["ALTER TABLE `t` ADD COLUMN `a` INT;", "BAD SQL STATEMENT",
       "ALTER TABLE `t` ADD COLUMN `c` INT;"]).success = false
  ∧ (executeScriptModel execW
      ["ALTER TABLE `t` ADD COLUMN `a` INT;", "BAD SQL STATEMENT",
       "ALTER TABLE `t` ADD COLUMN `c` INT;"]).errors =
      ["You have an error in your SQL syntax"] :=
  c7_partial_failure_semantics execW _ _ _ "You have an error in your SQL syntax" rfl rfl rfl

theorem diffMatchesFilters_eq_specShown (f : Filters) (d : Difference) :
    diffMatchesFilters f d = specShown f d := by
  unfold diffMatchesFilters specShown
  split_ifs with h1 h2 h3 h4 h5
  · obtain ⟨ha, hb⟩ := h1
    have e1 : (f.severity == "") = false := beq_eq_false_iff_ne.mpr ha
    have e2 : (d.severity == f.severity) = false := beq_eq_false_iff_ne.mpr hb
    simp [e1, e2]
  · obtain ⟨ha, hb⟩ := h2
    have e1 : (f.objectType == "") = false := beq_eq_false_iff_ne.mpr ha
    have e2 : (d.object_type == f.objectType) = false := beq_eq_false_iff_ne.mpr hb
    simp [e1, e2]
  · obtain ⟨ha, hb⟩ := h3
    have e1 : (f.schema == "") = false := beq_eq_false_iff_ne.mpr ha
    have e2 : (d.schema_name == some f.schema) = false := beq_eq_false_iff_ne.mpr hb
    simp [e1, e2]
  · obtain ⟨ha, hb⟩ := h4
    have e1 : (f.source == "") = false := beq_eq_false_iff_ne.mpr ha
    have e2 : (getSourceType d == f.source) = false := beq_eq_false_iff_ne.mpr hb
    simp [e1, e2]
  · have f1 : ((f.severity == "") || (d.severity == f.severity)) = true := by
      rcases not_and_or.mp h1 with h | h
      · simp [not_not.mp h]
      · simp [not_not.mp h]
    have f2 : ((f.objectType == "") || (d.object_type == f.objectType)) = true := by
      rcases not_and_or.mp h2 with h | h
      · simp [not_not.mp h]
      · simp [not_not.mp h]
    have f3 : ((f.schema == "") || (d.schema_name == some f.schema)) = true := by
      rcases not_and_or.mp h3 with h | h
      · simp [not_not.mp h]
      · simp [not_not.mp h]
    have f4 : ((f.source == "") || (getSourceType d == f.source)) = true := by
      rcases not_and_or.mp h4 with h | h
      · simp [not_not.mp h]
      · simp [not_not.mp h]
    simp [f1, f2, f3, f4, h5]
  · have e5 : (f.search == "") = false := beq_eq_false_iff_ne.mpr h5
    have f1 : ((f.severity == "") || (d.severity == f.severity)) = true := by
      rcases not_and_or.mp h1 with h | h
      · simp [not_not.mp h]
      · simp [not_not.mp h]
    have f2 : ((f.objectType == "") || (d.object_type == f.objectType)) = true := by
      rcases not_and_or.mp h2 with h | h
      · simp [not_not.mp h]
      · simp [not_not.mp h]
    have f3 : ((f.schema == "") || (d.schema_name == some f.schema)) = true := by
      rcases not_and_or.mp h3 with h | h
      · simp [not_not.mp h]
      · simp [not_not.mp h]
    have f4 : ((f.source == "") || (getSourceType d == f.source)) = true := by
      rcases not_and_or.mp h4 with h | h
      · simp [not_not.mp h]
      · simp [not_not.mp h]
    simp [f1, f2, f3, f4, e5]

/-- C8: the displayed list is exactly the order-preserving sublist of the
input satisfying every active filter simultaneously — the component's
filter equals the filter by the specification predicate `specShown`, it is
a sublist of the input, and with no active filter every difference is
shown. -/
theorem c8_filter_subsetting (f : Filters) (l : List Difference) :
    filteredDifferences f l = l.filter (specShown f)
  ∧ (filteredDifferences f l).Sublist l
  ∧ (f = {} → filteredDifferences f l = l) := by
  refine ⟨?_, ?_, ?_⟩
  · unfold filteredDifferences
    exact List.filter_congr (fun d _ => diffMatchesFilters_eq_specShown f d)
  · exact List.filter_sublist l
  · intro hf
    subst hf
    unfold filteredDifferences
    exact List.filter_eq_self.mpr (fun a _ => rfl)

/-- C8 witness: the empty filter state shows every difference. -/
theorem c8_filter_subsetting_witness :
    filteredDifferences {} [dC8w] = [dC8w] :=
  (c8_filter_subsetting {} [dC8w]).2.2 rfl

/-- C9 counterexample: on a `column_type_changed` difference with a full
target bag, the older variant emits a raw-default, comment-free,
headerless `MODIFY COLUMN` while the newer variant emits the complete
quoted/escaped definition with the execute-on header — the two variants
are not equivalent. -/
theorem c9_variant_counterexample :
    oldGenerateOption1SQL dC9ex
      = "ALTER TABLE `appdb`.`users` MODIFY COLUMN `status` VARCHAR(40) NOT NULL DEFAULT open;"
  ∧ generateOption1SQL dC9ex
      = "-- Execute on SOURCE database:\nALTER TABLE `appdb`.`users` MODIFY COLUMN `status` VARCHAR(40) NOT NULL DEFAULT 'open' COMMENT 'state';"
  ∧ (oldGenerateOption1SQL dC9ex == generateOption1SQL dC9ex) = false :=
  ⟨rfl, rfl, rfl⟩

set_option maxHeartbeats 2000000 in
/-- C9 (amended): the two UI-embedded variants agree on the index emission
rules — for `index_missing_source` and `index_missing_target` differences
both variants return the same SQL in both directions; they differ on
`column_type_changed` (see the counterexample). -/
theorem c9_variants_agree_on_index_missing (d : Difference)
    (hdt : d.diff_type = "index_missing_source" ∨ d.diff_type = "index_missing_target") :
    oldGenerateOption1SQL d = generateOption1SQL d
  ∧ oldGenerateOption2SQL d = generateOption2SQL d := by
  obtain ⟨dt', sev, ot, sn, onm, sub, sv, tv, sdv, tdv, desc, caf, fo, w⟩ := d
  dsimp only at hdt
  rcases hdt with h | h
  · subst h
    exact ⟨by cases tv <;> rfl, rfl⟩
  · subst h
    exact ⟨rfl, by cases sv <;> rfl⟩

/-- C9 witness: the amended agreement at the concrete index difference. -/
theorem c9_variants_agree_witness :
    oldGenerateOption1SQL dC9w = generateOption1SQL dC9w
  ∧ oldGenerateOption2SQL dC9w = generateOption2SQL dC9w :=
  c9_variants_agree_on_index_missing dC9w (Or.inl rfl)

/-- C10: credential non-leakage of the result export — the sanitized
export keeps only the host, port and database fields of each config (by
the type of `SanitizedConfig`), and both the sanitized record and the
serialized JSON are independent of the `user`, `password` and `ssh_tunnel`
fields: changing only those fields leaves the export unchanged. -/
theorem c10_export_credential_independence (r : ComparisonRes)
    (u1 p1 u2 p2 : String) (t1 t2 : Option SshTunnelCfg) :
    sanitizeResult
        { r with
          source_config := { r.source_config with user := u1, password := p1, ssh_tunnel := t1 },
          target_config := { r.target_config with user := u2, password := p2, ssh_tunnel := t2 } }
      = sanitizeResult r
  ∧ downloadJson
        { r with
          source_config := { r.source_config with user := u1, password := p1, ssh_tunnel := t1 },
          target_config := { r.target_config with user := u2, password := p2, ssh_tunnel := t2 } }
      = downloadJson r := by
  refine ⟨rfl, ?_⟩
  show renderSanitized (sanitizeResult _) = renderSanitized (sanitizeResult r)
  exact congrArg renderSanitized rfl
